import Mathlib

/-!
Shallow embedding of the bucketRelay WebSocket broadcast-relay server
(src/unnamed/part_000, second/current revision; src/utils/validator.js;
src/db/database.js, third/current revision) and proofs about the frozen
claims concerning its behaviour.

Strings are modelled as `List Char` (`Str`).  JavaScript `Date.now()`
timestamps are modelled as `Nat` (millisecond manipulations in the source
only ever compare `now - ts < windowMs` with `ts ≤ now`, which `Nat`
subtraction reproduces).  The external PostgreSQL store is modelled as an
explicit record of the `users` table; the async store calls of the source
become pure lookups/updates on that record.  WebSocket side effects
(`ws.send`, `ws.close`, event-store inserts) are modelled as an explicit
list of `Output` events produced by each handler.
-/

namespace BucketRelay

/-- Strings as lists of characters. -/
abbrev Str := List Char

/-- Shorthand turning a Lean string literal into `Str`. -/
def lit (s : String) : Str := s.data

/-- The JavaScript whitespace class `\s` (used by `String.prototype.trim`
and in the login regex): ASCII whitespace plus the Unicode space
characters JS recognises. -/
def jsSpace (c : Char) : Bool :=
  c = ' ' || c = '\t' || c = '\n' || c = '\r' || c = '\x0b' || c = '\x0c' ||
  c = ' ' || c = ' ' || (' ' ≤ c && c ≤ ' ') ||
  c = ' ' || c = ' ' || c = ' ' || c = ' ' ||
  c = '　' || c = '﻿'

/-- JavaScript `String.prototype.trim`: strip `\s` characters from both
ends. -/
def jsTrim (s : Str) : Str :=
  ((s.dropWhile jsSpace).reverse.dropWhile jsSpace).reverse

/-- JavaScript `String.prototype.toLowerCase`, restricted to the ASCII
range (`Char.toLower`); the tags compared by the dispatcher are ASCII. -/
def jsToLower (s : Str) : Str := s.map Char.toLower

/-- JavaScript `String.prototype.split(sep)` for a single-character
separator: `"" ↦ [""]`, `"," ↦ ["", ""]`, `"a,b" ↦ ["a", "b"]`. -/
def jsSplit (sep : Char) : Str → List Str
  | [] => [[]]
  | c :: rest =>
    match jsSplit sep rest with
    | [] => if c = sep then [[], []] else [[c]]
    | h :: t => if c = sep then [] :: h :: t else (c :: h) :: t

/-! ### Rate limiter (src/utils/validator.js, class RateLimiter)

The `clients` JS `Map` is an insertion-ordered association list with
unique keys; `Map.get`/`Map.set` become `mapFind?`/`mapSet`. -/

/-- JS `Map.prototype.get` on an association list. -/
def mapFind? {α : Type} (m : List (Nat × α)) (k : Nat) : Option α :=
  (m.find? (fun p => p.1 == k)).map (·.2)

/-- JS `Map.prototype.set`: replace in place if the key is present,
append otherwise. -/
def mapSet {α : Type} (m : List (Nat × α)) (k : Nat) (v : α) : List (Nat × α) :=
  if m.any (fun p => p.1 == k) then
    m.map (fun p => if p.1 == k then (k, v) else p)
  else m ++ [(k, v)]

/-- State of `RateLimiter`: capacity, window, and per-client timestamp
lists. -/
structure RateLimiter where
  maxMessages : Nat
  windowMs : Nat
  clients : List (Nat × List Nat)
deriving Repr, DecidableEq

/-- `RATE_LIMIT_MESSAGES` (server constant). -/
def RATE_LIMIT_MESSAGES : Nat := 100

/-- `RATE_LIMIT_WINDOW` (server constant, milliseconds). -/
def RATE_LIMIT_WINDOW : Nat := 60000

/-- `RateLimiter.tryAcquire(clientId)` evaluated at time `now`:
absent id records `[now]` and admits; otherwise timestamps outside the
window are discarded, and the call admits (recording `now`) iff the
surviving count is below capacity. -/
def RateLimiter.tryAcquire (rl : RateLimiter) (clientId : Nat) (now : Nat) :
    Bool × RateLimiter :=
  match mapFind? rl.clients clientId with
  | none => (true, { rl with clients := mapSet rl.clients clientId [now] })
  | some timestamps =>
    let validTimestamps := timestamps.filter (fun ts => now - ts < rl.windowMs)
    if rl.maxMessages ≤ validTimestamps.length then
      (false, { rl with clients := mapSet rl.clients clientId validTimestamps })
    else
      (true, { rl with clients := mapSet rl.clients clientId (validTimestamps ++ [now]) })

/-- `RateLimiter.reset(clientId)`: drop the id's history. -/
def RateLimiter.reset (rl : RateLimiter) (clientId : Nat) : RateLimiter :=
  { rl with clients := rl.clients.filter (fun p => !(p.1 == clientId)) }

/-- `RateLimiter.cleanup()`: periodic sweep discarding ids whose
timestamps have all left the window. -/
def RateLimiter.cleanup (rl : RateLimiter) (now : Nat) : RateLimiter :=
  let swept := rl.clients.map (fun p => (p.1, p.2.filter (fun ts => now - ts < rl.windowMs)))
  { rl with clients := swept.filter (fun p => !p.2.isEmpty) }

/-! ### Field validators (src/utils/validator.js) -/

/-- Characters admitted by the username regex `/^[a-zA-Z0-9_-]+$/`. -/
def usernameChar (c : Char) : Bool :=
  ('a' ≤ c && c ≤ 'z') || ('A' ≤ c && c ≤ 'Z') || ('0' ≤ c && c ≤ '9') ||
  c = '_' || c = '-'

/-- `validateUsername(username)`: trim, then reject empty, overlong
(> 50) or out-of-alphabet names; on success return the trimmed name.
The `typeof username !== 'string'` branch of the source cannot fire here
because the embedding types usernames as strings. -/
def validateUsername (u : Str) : Except Str Str :=
  let trimmed := jsTrim u
  if trimmed.length = 0 then .error (lit "Username cannot be empty")
  else if 50 < trimmed.length then .error (lit "Username too long (max 50 characters)")
  else if trimmed.all usernameChar then .ok trimmed
  else .error (lit "Username can only contain letters, numbers, underscores, and hyphens")

/-- JSON values as far as the validator observes them: it only ever
distinguishes strings from non-strings (`typeof data[field] !== 'string'`),
so every non-string JSON value is collapsed into `other`. -/
inductive JVal where
  | str (s : Str)
  | other
deriving Repr, DecidableEq

/-- A parsed JSON object (`broadcastData`): key/value pairs.  `jsObjGet`
reads a property the way `JSON.parse` resolves duplicate keys (the last
occurrence wins). -/
def jsObjGet (data : List (Str × JVal)) (field : Str) : Option JVal :=
  (data.reverse.find? (fun p => p.1 == field)).map (·.2)

/-- The ordered `requiredFields` list of `validateBroadcastMessage`. -/
def requiredFields : List Str :=
  [lit "title", lit "url", lit "icon", lit "source", lit "image"]

/-- The per-field checks of `validateBroadcastMessage`, in source order:
presence (`field in data`), stringness (`typeof`), non-emptiness after
trim.  Returns the error for the first failing check, `none` if the field
passes. -/
def checkField (data : List (Str × JVal)) (field : Str) : Option Str :=
  match jsObjGet data field with
  | none => some (lit "Missing required field: " ++ field)
  | some JVal.other => some (lit "Field '" ++ field ++ lit "' must be a string")
  | some (JVal.str s) =>
    if (jsTrim s).length = 0 then some (lit "Field '" ++ field ++ lit "' cannot be empty")
    else none

/-- `validateBroadcastMessage(data)` for object payloads: check the five
required fields in order, then `isValidUrl(data.url)`.  `isValidUrl`
delegates to the platform URL parser (`new URL(...)`), which the
embedding abstracts as the oracle `validUrl`.  Returns `some error` for
the first violation, `none` when valid.  The final wildcard arm is
unreachable: the field checks guarantee `url` is a string. -/
def validateBroadcastMessage (validUrl : Str → Bool)
    (data : List (Str × JVal)) : Option Str :=
  match requiredFields.findSome? (checkField data) with
  | some e => some e
  | none =>
    match jsObjGet data (lit "url") with
    | some (JVal.str u) => if validUrl u then none else some (lit "Invalid URL format")
    | _ => some (lit "Invalid URL format")

/-- `sanitizeString(str)`: empty for non-strings, otherwise trim and cap
at 1000 characters. -/
def sanitizeString (v : Option JVal) : Str :=
  match v with
  | some (JVal.str s) => (jsTrim s).take 1000
  | _ => []

/-- The sanitized payload of a `broadcast` envelope built by
`formatBroadcast(data)` (the `timestamp` field, a wall-clock read, is not
modelled). -/
structure FormattedBroadcast where
  title : Str
  url : Str
  icon : Str
  source : Str
  image : Str
deriving Repr, DecidableEq

/-- `formatBroadcast(data)`. -/
def formatBroadcast (data : List (Str × JVal)) : FormattedBroadcast where
  title := sanitizeString (jsObjGet data (lit "title"))
  url := sanitizeString (jsObjGet data (lit "url"))
  icon := sanitizeString (jsObjGet data (lit "icon"))
  source := sanitizeString (jsObjGet data (lit "source"))
  image := sanitizeString (jsObjGet data (lit "image"))

/-! ### Login-frame parsing (handleLogin, src/unnamed/part_000 lines 753-775)

The source matches `loginContent` against the anchored regex
`^(\S+)\s*\[([^\]]*)\]$`.  Because `\S+` is greedy, a successful match
ends with `]`, the bracket group starts at the last `[` of the content
(its body may not contain `]`), the characters between the first capture
and that `[` are whitespace, and the first capture is the non-empty
whitespace-free prefix before them. -/

/-- Split `body` as `pre ++ '[' ++ inner` where `inner` contains no `[`
(the bracket group starts at the last `[`); `none` when `body` has no
`[`. -/
def splitLastBracket (body : Str) : Option (Str × Str) :=
  let rev := body.reverse
  match (rev.dropWhile (fun c => !(c = '['))) with
  | [] => none
  | _ :: preRev => some (preRev.reverse, (rev.takeWhile (fun c => !(c = '['))).reverse)

/-- The regex match of `handleLogin`: `some (username, filterBody)` when
`loginContent` matches `^(\S+)\s*\[([^\]]*)\]$` (with the greedy capture
for `\S+`), `none` otherwise. -/
def extractBrackets (content : Str) : Option (Str × Str) :=
  if content.getLast? = some ']' then
    match splitLastBracket content.dropLast with
    | none => none
    | some (pre, inner) =>
      if inner.contains ']' then none
      else
        let u := (pre.reverse.dropWhile jsSpace).reverse
        if !u.isEmpty && u.all (fun c => !jsSpace c) then some (u, inner) else none
  else none

/-- Filter parsing of `handleLogin` applied to `loginContent`
(the already-trimmed text after `login `): no bracket match defaults the
filters to `['*']`; an empty bracket body means receive-nothing; a body
that trims to exactly `*` means receive-all; any other body is split on
commas, trimmed, lowercased, with empty tokens dropped. -/
def parseLoginContent (content : Str) : Str × List Str :=
  match extractBrackets content with
  | some (username, body) =>
    let filterStr := jsTrim body
    if filterStr.isEmpty then (username, [])
    else if filterStr = lit "*" then (username, [lit "*"])
    else
      (username,
        ((jsSplit ',' filterStr).map (fun s => jsToLower (jsTrim s))).filter
          (fun s => !s.isEmpty))
  | none => (content, [lit "*"])

/-- Username/filters extraction from a full (already outer-trimmed)
`login ...` frame: `message.substring(6).trim()` then the filter
parsing. -/
def parseLoginMessage (message : Str) : Str × List Str :=
  parseLoginContent (jsTrim (message.drop 6))

/-! ### Whitelist/role store (src/db/database.js, current revision)

The `users` table keyed by the unique `username` column, with the
`is_active` / `is_broadcaster` / `is_admin` flags the server consults.
Store calls are pure lookups/updates on this record; the event-history
table is write-only from the server's perspective and its inserts are
modelled as `Output.logEvent` events instead. -/

/-- One row of the `users` table. -/
structure UserRow where
  isActive : Bool
  isBroadcaster : Bool
  isAdmin : Bool
deriving Repr, DecidableEq

/-- The whitelist/role store: `users` rows keyed by username (unique). -/
structure DbState where
  users : List (Str × UserRow)
deriving Repr, DecidableEq

/-- Row lookup by username (unique key). -/
def DbState.findUser (db : DbState) (username : Str) : Option UserRow :=
  (db.users.find? (fun p => p.1 == username)).map (·.2)

/-- `isUserWhitelisted(username)`: a row exists and `is_active`. -/
def DbState.isUserWhitelisted (db : DbState) (username : Str) : Bool :=
  match db.findUser username with
  | some row => row.isActive
  | none => false

/-- `isBroadcaster(username)`: an active row with `is_broadcaster`. -/
def DbState.isBroadcaster (db : DbState) (username : Str) : Bool :=
  match db.findUser username with
  | some row => row.isActive && row.isBroadcaster
  | none => false

/-- `isAdmin(username)`: an active row with `is_admin`. -/
def DbState.isAdmin (db : DbState) (username : Str) : Bool :=
  match db.findUser username with
  | some row => row.isActive && row.isAdmin
  | none => false

/-- `addUser(username, isBroadcaster = false)`: insert, or on username
conflict re-activate the existing row (`DO UPDATE SET is_active = TRUE`).
New rows are active receivers (`is_admin` defaults to `FALSE`). -/
def DbState.addUser (db : DbState) (username : Str) : DbState :=
  if db.users.any (fun p => p.1 == username) then
    ⟨db.users.map (fun p =>
      if p.1 == username then (p.1, { p.2 with isActive := true }) else p)⟩
  else ⟨db.users ++ [(username, ⟨true, false, false⟩)]⟩

/-- `addBroadcaster(username)`: insert with `is_broadcaster = TRUE`, or on
conflict `DO UPDATE SET is_broadcaster = TRUE, is_active = TRUE`. -/
def DbState.addBroadcaster (db : DbState) (username : Str) : DbState :=
  if db.users.any (fun p => p.1 == username) then
    ⟨db.users.map (fun p =>
      if p.1 == username then (p.1, { p.2 with isBroadcaster := true, isActive := true })
      else p)⟩
  else ⟨db.users ++ [(username, ⟨true, true, false⟩)]⟩

/-- `removeUser(username)` (soft delete): `SET is_active = FALSE` on the
matching row, a no-op when no row matches. -/
def DbState.removeUser (db : DbState) (username : Str) : DbState :=
  ⟨db.users.map (fun p =>
    if p.1 == username then (p.1, { p.2 with isActive := false }) else p)⟩

/-- `removeBroadcaster(username)`: `SET is_broadcaster = FALSE` on the
matching row. -/
def DbState.removeBroadcaster (db : DbState) (username : Str) : DbState :=
  ⟨db.users.map (fun p =>
    if p.1 == username then (p.1, { p.2 with isBroadcaster := false }) else p)⟩

/-! ### Server data model (src/unnamed/part_000, current revision) -/

/-- One entry of the `clients` map: the per-connection session state.
`wsOpen` models `ws.readyState === WebSocket.OPEN`; `authTimerArmed`
models the pending 30-second authentication timeout. -/
structure Client where
  wsOpen : Bool
  authenticated : Bool
  username : Option Str
  isBroadcaster : Bool
  isAdmin : Bool
  sourceFilters : List Str
  authTimerArmed : Bool
  ip : Str
  messagesReceived : Nat
deriving Repr, DecidableEq

/-- The `clients` JS `Map`: insertion-ordered, unique `clientId` keys. -/
abbrev Registry := List (Nat × Client)

/-- The mutable `this.stats` counters. -/
structure Stats where
  totalConnections : Nat
  totalDisconnections : Nat
  totalBroadcasts : Nat
  totalMessagesDelivered : Nat
  totalAuthFailures : Nat
  peakConnections : Nat
deriving Repr, DecidableEq

/-- One entry of the `recentBroadcasts` activity ring (the wall-clock
`id`/`timestamp` fields are not modelled). -/
structure RecentBroadcast where
  title : Str
  source : Str
  sender : Option Str
  recipients : Nat
deriving Repr, DecidableEq

/-- The mutable server state a message handler can touch: the client
registry, the lifetime counters and the recent-broadcast ring. -/
structure ServerState where
  clients : Registry
  stats : Stats
  recentBroadcasts : List RecentBroadcast
deriving Repr, DecidableEq

/-- Server-to-client envelopes (the JSON objects passed to `ws.send`),
with the payload fields the handlers fill in. -/
inductive OutMsg where
  | info (message : Str)
  | errorMsg (message : Str)
  | authSuccess (username : Str) (isBroadcaster : Bool) (isAdmin : Bool)
      (sourceFilters : List Str) (message : Str)
  | broadcastEnv (payload : FormattedBroadcast)
  | broadcastSent (recipients : Nat) (message : Str)
  | adminResponse (message : Str)
  | statusUpdate (isBroadcaster : Bool)
  | userDetail (username : Str) (activeConnections : Nat)
  | connectionStats (target : Str)
deriving Repr, DecidableEq

/-- Observable side effects of a handler, in program order: WebSocket
sends, WebSocket closes (`ws.close(code, reason)`), and best-effort
event-history inserts (`db.logConnectionEvent`). -/
inductive Output where
  | send (clientId : Nat) (msg : OutMsg)
  | close (clientId : Nat) (code : Nat) (reason : Str)
  | logEvent (username : Str) (ip : Str) (eventType : Str) (reason : Option Str)
deriving Repr, DecidableEq

/-- `MAX_CONNECTIONS_PER_USER` (server constant). -/
def MAX_CONNECTIONS_PER_USER : Nat := 5

/-- `this.clients.get(clientId)`. -/
def findClient (reg : Registry) (clientId : Nat) : Option Client :=
  (reg.find? (fun p => p.1 == clientId)).map (·.2)

/-- In-place mutation of the session object `this.clients.get(clientId)`
refers to (keys are unique, so at most one entry changes). -/
def setClient (reg : Registry) (clientId : Nat) (c : Client) : Registry :=
  reg.map (fun p => if p.1 == clientId then (clientId, c) else p)

/-- `countConnectionsForUsername(username)`: authenticated sessions whose
`username` strictly equals the argument. -/
def countConnectionsForUsername (reg : Registry) (username : Str) : Nat :=
  (reg.filter (fun p => p.2.authenticated && p.2.username == some username)).length

/-- `countAuthenticatedUsers()`. -/
def countAuthenticatedUsers (reg : Registry) : Nat :=
  (reg.filter (fun p => p.2.authenticated)).length

/-! ### Login handler (handleLogin, src/unnamed/part_000 lines 741-852) -/

/-- The `auth_success` welcome text: `Welcome, <u>! Filters: <list>`. -/
def welcomeMessage (username : Str) (sourceFilters : List Str) : Str :=
  lit "Welcome, " ++ username ++ lit "! Filters: " ++
    (if sourceFilters.length = 0 then lit "none"
     else List.intercalate (lit ", ") sourceFilters)

/-- `handleLogin(clientId, message)`.  `message` is the outer-trimmed
frame (known to start with `login `); `db` is the whitelist store.
Returns the new server state and the emitted effects in program order.
The source's `logger.*` console calls are not modelled. -/
def handleLogin (db : DbState) (st : ServerState) (clientId : Nat)
    (message : Str) : ServerState × List Output :=
  match findClient st.clients clientId with
  | none => (st, [])
  | some client =>
    if client.authenticated then
      (st, [.send clientId (.errorMsg (lit "Already authenticated"))])
    else
      let parsed := parseLoginMessage message
      let username := parsed.1
      let sourceFilters := parsed.2
      match validateUsername username with
      | .error e =>
        (st, [.send clientId (.errorMsg (lit "Invalid username: " ++ e))])
      | .ok validUsername =>
        if !db.isUserWhitelisted validUsername then
          ({ st with stats :=
              { st.stats with totalAuthFailures := st.stats.totalAuthFailures + 1 } },
           [.logEvent validUsername client.ip (lit "auth_fail") (some (lit "Not whitelisted")),
            .send clientId (.errorMsg (lit "Access denied. Username not whitelisted.")),
            .close clientId 1008 (lit "Not whitelisted")])
        else
          let currentConnections := countConnectionsForUsername st.clients validUsername
          if MAX_CONNECTIONS_PER_USER ≤ currentConnections then
            ({ st with stats :=
                { st.stats with totalAuthFailures := st.stats.totalAuthFailures + 1 } },
             [.logEvent validUsername client.ip (lit "auth_fail")
                (some (lit "Max connections exceeded")),
              .send clientId (.errorMsg
                (lit "Maximum concurrent connections (5) reached for this username.")),
              .close clientId 1008 (lit "Max connections exceeded")])
          else
            let isBroadcaster := db.isBroadcaster validUsername
            let isAdmin := db.isAdmin validUsername
            let newClient := { client with
              authenticated := true
              username := some validUsername
              isBroadcaster := isBroadcaster
              isAdmin := isAdmin
              sourceFilters := sourceFilters
              authTimerArmed := false }
            let clients := setClient st.clients clientId newClient
            let authCount := countAuthenticatedUsers clients
            let peak :=
              if st.stats.peakConnections < authCount then authCount
              else st.stats.peakConnections
            ({ clients := clients
               stats := { st.stats with peakConnections := peak }
               recentBroadcasts := st.recentBroadcasts },
             [.logEvent validUsername client.ip (lit "connect") none,
              .send clientId (.authSuccess validUsername isBroadcaster isAdmin sourceFilters
                (welcomeMessage validUsername sourceFilters))])

/-! ### Broadcast dispatcher (handleBroadcast, src/unnamed/part_000
lines 876-965) -/

/-- Eligibility test of the fan-out loop: the session is authenticated
with an open transport, its filter list is non-empty, and either its
first filter is `*` (`filters[0] !== '*'` short-circuit) or the list
contains the lowercased broadcast source. -/
def eligibleForBroadcast (c : Client) (broadcastSource : Str) : Bool :=
  c.authenticated && c.wsOpen &&
    (!c.sourceFilters.isEmpty &&
      (c.sourceFilters.head? == some (lit "*") ||
       c.sourceFilters.contains broadcastSource))

/-- The fan-out loop over the registry in insertion order: bump
`messagesReceived` on each eligible session and record the delivery.
Returns the updated registry and the ids delivered to, in order. -/
def dispatchBroadcast (reg : Registry) (broadcastSource : Str) :
    Registry × List Nat :=
  match reg with
  | [] => ([], [])
  | (i, c) :: rest =>
    let tail := dispatchBroadcast rest broadcastSource
    if eligibleForBroadcast c broadcastSource then
      ((i, { c with messagesReceived := c.messagesReceived + 1 }) :: tail.1, i :: tail.2)
    else ((i, c) :: tail.1, tail.2)

/-- `handleBroadcast(clientId, rawMessage, jsonData)` from the point
where `broadcastData` has been obtained (the `broadcast <json>` prefix
stripping and `JSON.parse` are outside this model; a parse failure sends
an error and touches nothing).  `validUrl` is the platform URL-parser
oracle used by `isValidUrl`. -/
def handleBroadcast (validUrl : Str → Bool) (st : ServerState) (clientId : Nat)
    (broadcastData : List (Str × JVal)) : ServerState × List Output :=
  match findClient st.clients clientId with
  | none => (st, [])
  | some client =>
    if !client.isBroadcaster then
      (st, [.send clientId (.errorMsg
        (lit "Permission denied. Only broadcasters can send messages."))])
    else
      match validateBroadcastMessage validUrl broadcastData with
      | some e =>
        (st, [.send clientId (.errorMsg (lit "Invalid broadcast: " ++ e))])
      | none =>
        let formattedMessage := formatBroadcast broadcastData
        let sourceStr :=
          match jsObjGet broadcastData (lit "source") with
          | some (JVal.str s) => s
          | _ => []
        let broadcastSource := jsToLower sourceStr
        let fanout := dispatchBroadcast st.clients broadcastSource
        let recipients := fanout.2.length
        let ring :=
          ({ title :=
               match jsObjGet broadcastData (lit "title") with
               | some (JVal.str s) => s
               | _ => []
             source := sourceStr
             sender := client.username
             recipients := recipients } : RecentBroadcast) :: st.recentBroadcasts
        let ring := if 20 < ring.length then ring.dropLast else ring
        ({ clients := fanout.1
           stats := { st.stats with
             totalBroadcasts := st.stats.totalBroadcasts + 1
             totalMessagesDelivered := st.stats.totalMessagesDelivered + recipients }
           recentBroadcasts := ring },
         fanout.2.map (fun i => Output.send i (.broadcastEnv formattedMessage)) ++
           [.send clientId (.broadcastSent recipients
             (lit "Broadcast sent to " ++ lit (Nat.repr recipients) ++ lit " clients"))])

/-! ### Admin control plane (handleAdminCommand, kickUser, banUser,
updateConnectedUserStatus; src/unnamed/part_000 lines 967-1138) -/

/-- `kickUser(username, reason)`: log a `kicked` event, notify and close
the FIRST session whose `username` matches, then stop (the loop returns
on its first hit).  The close reason is the fixed string
`Kicked by admin` regardless of the `reason` argument. -/
def kickUser (reg : Registry) (username : Str) (reason : Str) : Bool × List Output :=
  match reg with
  | [] => (false, [])
  | (i, c) :: rest =>
    if c.username == some username then
      (true,
       [.logEvent username c.ip (lit "kicked") (some reason),
        .send i (.errorMsg (lit "You have been kicked by an admin")),
        .close i 1008 (lit "Kicked by admin")])
    else kickUser rest username reason

/-- `banUser(username)`: log a `banned` event for every matching session,
soft-deactivate the row in the store, then call `kickUser`. -/
def banUser (db : DbState) (reg : Registry) (username : Str) :
    DbState × List Output :=
  let banLogs :=
    (reg.filter (fun p => p.2.username == some username)).map
      (fun p => Output.logEvent username p.2.ip (lit "banned") (some (lit "Banned by admin")))
  let db2 := db.removeUser username
  let kick := kickUser reg username (lit "Banned by admin")
  (db2, banLogs ++ kick.2)

/-- `updateConnectedUserStatus(username, updates)` for the only update
shape the call sites use (`{ isBroadcaster: b }`): set the flag on every
session whose `username` matches and send each a `status_update`. -/
def updateConnectedUserStatus (reg : Registry) (username : Str)
    (isBroadcaster : Bool) : Registry × List Output :=
  match reg with
  | [] => ([], [])
  | (i, c) :: rest =>
    let tail := updateConnectedUserStatus rest username isBroadcaster
    if c.username == some username then
      ((i, { c with isBroadcaster := isBroadcaster }) :: tail.1,
       Output.send i (.statusUpdate isBroadcaster) :: tail.2)
    else ((i, c) :: tail.1, tail.2)

/-- `handleAdminCommand(clientId, message)`.  `adminPassword` is the
optional `ADMIN_PASSWORD` environment value; `message` is the
outer-trimmed frame.  `parts[1..3]` come from `message.split(' ')`; a
missing or empty `target` is falsy.  The store-backed verbs cannot throw
in this pure model, so the catch branch is not reachable.  For
`user_detail` and `connection_stats` (pure event-store reads, no claim
touches their payloads) only the active-connection count respectively the
raw target are carried in the envelope. -/
def handleAdminCommand (adminPassword : Option Str) (db : DbState)
    (st : ServerState) (clientId : Nat) (message : Str) :
    DbState × ServerState × List Output :=
  match findClient st.clients clientId with
  | none => (db, st, [])
  | some client =>
    if !client.isAdmin then
      (db, st, [.send clientId (.errorMsg (lit "Permission denied. Admin access required."))])
    else
      let parts := jsSplit ' ' message
      let command := parts.get? 1
      let password := parts.get? 2
      let target := parts.get? 3
      let passwordFails :=
        match adminPassword with
        | some pw => !(password == some pw)
        | none => false
      if passwordFails then
        (db, st, [.send clientId (.errorMsg (lit "Invalid admin password."))])
      else
        match target with
        | none =>
          (db, st, [.send clientId (.errorMsg (lit "Usage: admin <command> <password> <username>"))])
        | some t =>
          if t.isEmpty then
            (db, st, [.send clientId (.errorMsg (lit "Usage: admin <command> <password> <username>"))])
          else if command == some (lit "add_user") then
            (db.addUser t, st,
             [.send clientId (.adminResponse (lit "User " ++ t ++ lit " added to whitelist"))])
          else if command == some (lit "remove_user") then
            (db.removeUser t, st,
             [.send clientId (.adminResponse (lit "User " ++ t ++ lit " removed from whitelist"))])
          else if command == some (lit "add_broadcaster") then
            let upd := updateConnectedUserStatus st.clients t true
            (db.addBroadcaster t, { st with clients := upd.1 },
             upd.2 ++ [.send clientId (.adminResponse (t ++ lit " granted broadcaster permissions"))])
          else if command == some (lit "remove_broadcaster") then
            let upd := updateConnectedUserStatus st.clients t false
            (db.removeBroadcaster t, { st with clients := upd.1 },
             upd.2 ++ [.send clientId (.adminResponse (t ++ lit " removed from broadcasters"))])
          else if command == some (lit "kick") then
            let kick := kickUser st.clients t (lit "Kicked by admin")
            (db, st,
             kick.2 ++ [.send clientId (.adminResponse
               (if kick.1 then t ++ lit " has been kicked" else t ++ lit " is not connected"))])
          else if command == some (lit "ban") then
            let ban := banUser db st.clients t
            (ban.1, st,
             ban.2 ++ [.send clientId (.adminResponse (t ++ lit " has been banned and disconnected"))])
          else if command == some (lit "user_detail") then
            (db, st,
             [.send clientId (.userDetail t (countConnectionsForUsername st.clients t))])
          else if command == some (lit "connection_stats") then
            (db, st, [.send clientId (.connectionStats t)])
          else
            (db, st, [.send clientId (.errorMsg
              (lit "Unknown command. Available: add_user, remove_user, add_broadcaster, remove_broadcaster, kick, ban, user_detail, connection_stats"))])

/-- `handleDisconnect(clientId)`: cancel the auth timer, log a
`disconnect` event for authenticated sessions, bump the disconnect
counter and delete the registry entry.  (The companion
`rateLimiter.reset(clientId)` call acts on the separate `RateLimiter`
state.) -/
def handleDisconnect (st : ServerState) (clientId : Nat) :
    ServerState × List Output :=
  match findClient st.clients clientId with
  | none => (st, [])
  | some client =>
    let outs :=
      if client.authenticated && client.username.isSome then
        match client.username with
        | some u => [Output.logEvent u client.ip (lit "disconnect") (some (lit "Client disconnected"))]
        | none => []
      else []
    ({ clients := st.clients.filter (fun p => !(p.1 == clientId))
       stats := { st.stats with totalDisconnections := st.stats.totalDisconnections + 1 }
       recentBroadcasts := st.recentBroadcasts },
     outs)

/-- Convenience constructor for concrete sessions used in witnesses and
counterexamples. -/
def mkClient (wsOpen authenticated : Bool) (username : Option Str)
    (isBroadcaster isAdmin : Bool) (sourceFilters : List Str) : Client :=
  { wsOpen := wsOpen, authenticated := authenticated, username := username,
    isBroadcaster := isBroadcaster, isAdmin := isAdmin,
    sourceFilters := sourceFilters, authTimerArmed := false,
    ip := lit "127.0.0.1", messagesReceived := 0 }

/-! ### Helper lemmas -/

theorem dropWhile_append_all {p : Char → Bool} {l1 l2 : Str}
    (h : ∀ c ∈ l1, p c = true) :
    (l1 ++ l2).dropWhile p = l2.dropWhile p := by
  induction l1 with
  | nil => rfl
  | cons a l ih =>
    have ha : p a = true := h a (List.mem_cons_self a l)
    simp only [List.cons_append, List.dropWhile_cons, ha, if_true]
    exact ih (fun c hc => h c (List.mem_cons_of_mem a hc))

theorem dropWhile_eq_self_of_head {p : Char → Bool} {l : Str}
    (h : ∀ c, l.head? = some c → p c = false) : l.dropWhile p = l := by
  cases l with
  | nil => rfl
  | cons a l => simp [List.dropWhile_cons, h a rfl]

theorem takeWhile_append_of_all {p : Char → Bool} {l1 l2 : Str} {x : Char}
    (h : ∀ c ∈ l1, p c = true) (hx : p x = false) :
    (l1 ++ x :: l2).takeWhile p = l1 := by
  induction l1 with
  | nil => simp [List.takeWhile_cons, hx]
  | cons a l ih =>
    have ha : p a = true := h a (List.mem_cons_self a l)
    simp only [List.cons_append, List.takeWhile_cons, ha, if_true]
    rw [ih (fun c hc => h c (List.mem_cons_of_mem a hc))]

theorem dropWhile_append_of_all {p : Char → Bool} {l1 l2 : Str} {x : Char}
    (h : ∀ c ∈ l1, p c = true) (hx : p x = false) :
    (l1 ++ x :: l2).dropWhile p = x :: l2 := by
  rw [dropWhile_append_all h]
  simp [List.dropWhile_cons, hx]

/-- Trimming fixes a string whose two ends are not whitespace. -/
theorem jsTrim_eq_self {l : Str}
    (hh : ∀ c, l.head? = some c → jsSpace c = false)
    (hl : ∀ c, l.getLast? = some c → jsSpace c = false) : jsTrim l = l := by
  unfold jsTrim
  rw [dropWhile_eq_self_of_head hh]
  rw [dropWhile_eq_self_of_head (fun c hc => hl c (by rwa [← List.head?_reverse]))]
  exact List.reverse_reverse l

theorem findClient_cons {j : Nat} {d : Client} {rest : Registry} {i : Nat} :
    findClient ((j, d) :: rest) i = if j = i then some d else findClient rest i := by
  by_cases h : j = i <;> simp [findClient, List.find?_cons, h]

theorem setClient_cons {k : Nat} {d : Client} {rest : Registry} {i : Nat} {c : Client} :
    setClient ((k, d) :: rest) i c =
      (if k = i then (i, c) else (k, d)) :: setClient rest i c := by
  by_cases hk : k = i <;> simp [setClient, hk]

theorem findClient_setClient_self {reg : Registry} {i : Nat} {c : Client} :
    findClient (setClient reg i c) i = (findClient reg i).map (fun _ => c) := by
  induction reg with
  | nil => rfl
  | cons p rest ih =>
    obtain ⟨k, d⟩ := p
    rw [setClient_cons]
    by_cases hk : k = i
    · subst hk
      rw [if_pos rfl, findClient_cons, if_pos rfl, findClient_cons, if_pos rfl]
      rfl
    · rw [if_neg hk, findClient_cons, if_neg hk, findClient_cons, if_neg hk]
      exact ih

theorem findClient_setClient_ne {reg : Registry} {i j : Nat} {c : Client}
    (h : j ≠ i) : findClient (setClient reg i c) j = findClient reg j := by
  induction reg with
  | nil => rfl
  | cons p rest ih =>
    obtain ⟨k, d⟩ := p
    rw [setClient_cons]
    by_cases hk : k = i
    · subst hk
      rw [if_pos rfl, findClient_cons, if_neg (fun hkj => h hkj.symm),
        findClient_cons, if_neg (fun hkj => h hkj.symm)]
      exact ih
    · rw [if_neg hk, findClient_cons, findClient_cons]
      by_cases hkj : k = j
      · rw [if_pos hkj, if_pos hkj]
      · rw [if_neg hkj, if_neg hkj]
        exact ih

/-- Key uniqueness turns membership into lookup. -/
theorem findClient_of_mem {reg : Registry} {i : Nat} {c : Client}
    (hnd : (reg.map Prod.fst).Nodup) (hmem : (i, c) ∈ reg) :
    findClient reg i = some c := by
  induction reg with
  | nil => cases hmem
  | cons p rest ih =>
    obtain ⟨j, d⟩ := p
    simp only [List.map_cons, List.nodup_cons] at hnd
    rcases List.mem_cons.mp hmem with heq | hmem2
    · cases heq
      rw [findClient_cons, if_pos rfl]
    · have hj : j ≠ i := by
        intro hji
        exact hnd.1 (by simpa [hji] using List.mem_map_of_mem Prod.fst hmem2)
      rw [findClient_cons, if_neg hj]
      exact ih hnd.2 hmem2

/-- With unique keys, an id occurs in the filtered key list exactly when
its entry passes the filter. -/
theorem count_filter_keys {reg : Registry} {i : Nat} {c : Client}
    {f : Nat × Client → Bool}
    (hnd : (reg.map Prod.fst).Nodup) (hmem : (i, c) ∈ reg) :
    ((reg.filter f).map Prod.fst).count i = if f (i, c) then 1 else 0 := by
  induction reg with
  | nil => cases hmem
  | cons p rest ih =>
    obtain ⟨j, d⟩ := p
    simp only [List.map_cons, List.nodup_cons] at hnd
    rcases List.mem_cons.mp hmem with heq | hmem2
    · cases heq
      have hrest : ((rest.filter f).map Prod.fst).count i = 0 := by
        refine List.count_eq_zero.mpr (fun hmi => hnd.1 ?_)
        obtain ⟨q, hq, hq2⟩ := List.mem_map.mp hmi
        exact hq2 ▸ List.mem_map_of_mem Prod.fst (List.mem_of_mem_filter hq)
      by_cases hf : f (i, c)
      · simp [List.filter_cons, hf, hrest]
      · simp [List.filter_cons, hf, hrest]
    · have hj : j ≠ i := by
        intro hji
        exact hnd.1 (by simpa [hji] using List.mem_map_of_mem Prod.fst hmem2)
      by_cases hf : f (j, d)
      · simp only [List.filter_cons, hf, if_true, List.map_cons, List.count_cons,
          ih hnd.2 hmem2]
        simp [hj]
      · simp only [List.filter_cons, hf, Bool.false_eq_true, if_false]
        exact ih hnd.2 hmem2

/-- Closed form of the fan-out loop: registry entries are transformed
pointwise and the delivery list collects the eligible keys in order. -/
theorem dispatchBroadcast_eq (reg : Registry) (src : Str) :
    dispatchBroadcast reg src =
      (reg.map (fun p =>
        (p.1, if eligibleForBroadcast p.2 src then
          { p.2 with messagesReceived := p.2.messagesReceived + 1 } else p.2)),
       (reg.filter (fun p => eligibleForBroadcast p.2 src)).map Prod.fst) := by
  induction reg with
  | nil => rfl
  | cons p rest ih =>
    obtain ⟨i, c⟩ := p
    by_cases h : eligibleForBroadcast c src <;>
      simp [dispatchBroadcast, h, ih, List.filter_cons]

/-- Pointwise view of `updateConnectedUserStatus` on the registry. -/
theorem updateConnectedUserStatus_fst (reg : Registry) (u : Str) (b : Bool) :
    (updateConnectedUserStatus reg u b).1 =
      reg.map (fun p =>
        (p.1, if p.2.username == some u then { p.2 with isBroadcaster := b } else p.2)) := by
  induction reg with
  | nil => rfl
  | cons p rest ih =>
    obtain ⟨i, c⟩ := p
    by_cases h : c.username = some u <;>
      simp [updateConnectedUserStatus, h, ih]

/-- The `status_update` sends of `updateConnectedUserStatus` go exactly to
the matching sessions, in registry order. -/
theorem updateConnectedUserStatus_snd (reg : Registry) (u : Str) (b : Bool) :
    (updateConnectedUserStatus reg u b).2 =
      (reg.filter (fun p => p.2.username == some u)).map
        (fun p => Output.send p.1 (OutMsg.statusUpdate b)) := by
  induction reg with
  | nil => rfl
  | cons p rest ih =>
    obtain ⟨i, c⟩ := p
    by_cases h : c.username = some u <;>
      simp [updateConnectedUserStatus, h, ih, List.filter_cons]

/-- Lookup commutes with a first-component-preserving map. -/
theorem find?_fstpreserving_map {κ α : Type} [BEq κ] [LawfulBEq κ] [DecidableEq κ]
    (users : List (κ × α)) (v : κ)
    (f : κ × α → κ × α) (hf : ∀ p, (f p).1 = p.1) :
    (users.map f).find? (fun p => p.1 == v) =
      (users.find? (fun p => p.1 == v)).map f := by
  induction users with
  | nil => rfl
  | cons p rest ih =>
    by_cases hv : p.1 = v
    · rw [List.map_cons, List.find?_cons_of_pos _ (by simp [hf, hv]),
        List.find?_cons_of_pos _ (by simp [hv])]
      rfl
    · rw [List.map_cons, List.find?_cons_of_neg _ (by simp [hf, hv]),
        List.find?_cons_of_neg _ (by simp [hv]), ih]

/-- A deactivated username is no longer whitelisted. -/
theorem isUserWhitelisted_removeUser (db : DbState) (u : Str) :
    (db.removeUser u).isUserWhitelisted u = false := by
  unfold DbState.removeUser DbState.isUserWhitelisted DbState.findUser
  rw [find?_fstpreserving_map db.users u _
    (fun p => by by_cases hp : p.1 = u <;> simp [hp])]
  cases h : db.users.find? (fun p => p.1 == u) with
  | none => rfl
  | some p =>
    have hu : p.1 = u := by simpa using List.find?_some h
    simp [hu]

/-- After `addBroadcaster`, the username resolves as an active
broadcaster. -/
theorem isBroadcaster_addBroadcaster (db : DbState) (u : Str) :
    (db.addBroadcaster u).isBroadcaster u = true := by
  unfold DbState.addBroadcaster DbState.isBroadcaster DbState.findUser
  by_cases hany : db.users.any (fun p => p.1 == u)
  · simp only [hany, if_true]
    rw [find?_fstpreserving_map db.users u _
      (fun p => by by_cases hp : p.1 = u <;> simp [hp])]
    obtain ⟨p, hp, hpu⟩ := List.any_eq_true.mp hany
    cases h : db.users.find? (fun p => p.1 == u) with
    | none =>
      exact absurd (by simpa using hpu) (List.find?_eq_none.mp h p hp)
    | some q =>
      have hq : q.1 = u := by simpa using List.find?_some h
      simp [hq]
  · simp only [hany, Bool.false_eq_true, if_false]
    have hnone : db.users.find? (fun p => p.1 == u) = none := by
      rw [List.find?_eq_none]
      intro p hp hpu
      exact hany (List.any_eq_true.mpr ⟨p, hp, hpu⟩)
    rw [List.find?_append, hnone]
    simp

/-- `kickUser` closes at most one session: exactly one close event when a
session matches, none otherwise. -/
theorem kickUser_close_count (reg : Registry) (u : Str) (reason : Str) :
    ((kickUser reg u reason).2.countP
      (fun o => match o with | Output.close _ _ _ => true | _ => false)) =
      if reg.any (fun p => p.2.username == some u) then 1 else 0 := by
  induction reg with
  | nil => rfl
  | cons p rest ih =>
    obtain ⟨i, c⟩ := p
    by_cases h : c.username = some u
    · simp [kickUser, h, ih, List.countP_cons]
    · have hb : (c.username == some u) = false := by simp [h]
      rw [List.any_cons, hb, Bool.false_or]
      simp [kickUser, hb, ih]

/-- Every close emitted by `kickUser` uses the policy-violation code 1008
and targets a session of the named user. -/
theorem kickUser_close_mem (reg : Registry) (u : Str) (reason : Str)
    (i code : Nat) (r : Str)
    (hmem : Output.close i code r ∈ (kickUser reg u reason).2) :
    code = 1008 ∧ ∃ c : Client, (i, c) ∈ reg ∧ c.username = some u := by
  induction reg with
  | nil => cases hmem
  | cons p rest ih =>
    obtain ⟨j, d⟩ := p
    by_cases h : d.username == some u
    · simp only [kickUser, h, if_true, List.mem_cons, List.mem_singleton] at hmem
      rcases hmem with h1 | h1 | h1 | h1
      · cases h1
      · cases h1
      · cases h1
        exact ⟨rfl, d, List.mem_cons_self _ _, by simpa using h⟩
      · cases h1
    · simp only [kickUser, h, Bool.false_eq_true, if_false] at hmem
      obtain ⟨hc, c, hcm, hcu⟩ := ih hmem
      exact ⟨hc, c, List.mem_cons_of_mem _ hcm, hcu⟩

/-- `Map.get` after `Map.set` of the same key. -/
theorem mapFind?_mapSet_self {α : Type} (m : List (Nat × α)) (k : Nat) (v : α) :
    mapFind? (mapSet m k v) k = some v := by
  unfold mapFind? mapSet
  by_cases hany : m.any (fun p => p.1 == k)
  · simp only [hany, if_true]
    rw [find?_fstpreserving_map m k _
      (fun p => by by_cases hp : p.1 = k <;> simp [hp])]
    obtain ⟨p, hp, hpk⟩ := List.any_eq_true.mp hany
    cases h : m.find? (fun p => p.1 == k) with
    | none => exact absurd (by simpa using hpk) (List.find?_eq_none.mp h p hp)
    | some q =>
      have hq : q.1 = k := by simpa using List.find?_some h
      simp [hq]
  · simp only [hany, Bool.false_eq_true, if_false]
    have hnone : m.find? (fun p => p.1 == k) = none := by
      rw [List.find?_eq_none]
      intro p hp hpk
      exact hany (List.any_eq_true.mpr ⟨p, hp, hpk⟩)
    rw [List.find?_append, hnone]
    simp

/-- Dropping an element that fails the filter strictly shrinks it. -/
theorem length_filter_lt_of_mem_not {p : Nat → Bool} {l : List Nat} {t : Nat}
    (hmem : t ∈ l) (hp : p t = false) : (l.filter p).length < l.length := by
  induction l with
  | nil => cases hmem
  | cons a rest ih =>
    rcases List.mem_cons.mp hmem with heq | hmem2
    · subst heq
      rw [List.filter_cons, hp]
      exact Nat.lt_succ_of_le (List.length_filter_le p rest)
    · by_cases ha : p a
      · rw [List.filter_cons, ha]
        exact Nat.succ_lt_succ (ih hmem2)
      · have hfc : (a :: rest).filter p = rest.filter p := by simp [List.filter_cons, ha]
        rw [hfc]
        exact Nat.lt_succ_of_lt (ih hmem2)

/-- `findClient` through a value-only transformation of the registry. -/
theorem findClient_map_val (reg : Registry) (g : Client → Client) (i : Nat) :
    findClient (reg.map (fun p => (p.1, g p.2))) i = (findClient reg i).map g := by
  induction reg with
  | nil => rfl
  | cons p rest ih =>
    obtain ⟨k, d⟩ := p
    by_cases hk : k = i
    · subst hk
      rw [List.map_cons, findClient_cons, findClient_cons, if_pos rfl, if_pos rfl]
      rfl
    · rw [List.map_cons, findClient_cons, findClient_cons, if_neg hk, if_neg hk]
      exact ih

/-- `kickUser` never logs a `banned` event (its log events carry type
`kicked`). -/
theorem kickUser_countP_banned (reg : Registry) (u : Str) (reason : Str) :
    (kickUser reg u reason).2.countP
      (fun o => match o with
        | Output.logEvent _ _ et _ => et == lit "banned"
        | _ => false) = 0 := by
  induction reg with
  | nil => rfl
  | cons p rest ih =>
    obtain ⟨i, c⟩ := p
    by_cases h : c.username = some u
    · simp [kickUser, h, List.countP_cons]
      decide
    · have hb : (c.username == some u) = false := by simp [h]
      simp [kickUser, hb, ih]

/-! ## Claim theorems -/

/-- C2: for a session id with capacity 100 admissions per rolling 60000 ms
window: when 100 admitted timestamps lie inside the window, a further
`tryAcquire` within the window is rejected and records no new timestamp
(the stored history only keeps entries that were already present); and
once the window has elapsed from an admitted timestamp, that timestamp is
discarded and `tryAcquire` admits again. -/
theorem c2_rate_limiter_sliding_window :
    (∀ (rl : RateLimiter) (id now : Nat) (ts : List Nat),
      rl.maxMessages = RATE_LIMIT_MESSAGES → rl.windowMs = RATE_LIMIT_WINDOW →
      mapFind? rl.clients id = some ts →
      RATE_LIMIT_MESSAGES ≤ (ts.filter (fun t => now - t < RATE_LIMIT_WINDOW)).length →
      (rl.tryAcquire id now).1 = false ∧
        mapFind? ((rl.tryAcquire id now).2.clients) id =
          some (ts.filter (fun t => now - t < RATE_LIMIT_WINDOW)) ∧
        ∀ t ∈ ts.filter (fun t => now - t < RATE_LIMIT_WINDOW), t ∈ ts) ∧
    (∀ (rl : RateLimiter) (id now : Nat) (ts : List Nat) (t : Nat),
      rl.maxMessages = RATE_LIMIT_MESSAGES → rl.windowMs = RATE_LIMIT_WINDOW →
      mapFind? rl.clients id = some ts →
      ts.length ≤ RATE_LIMIT_MESSAGES →
      t ∈ ts → t + RATE_LIMIT_WINDOW ≤ now →
      (rl.tryAcquire id now).1 = true ∧
        mapFind? ((rl.tryAcquire id now).2.clients) id =
          some (ts.filter (fun x => now - x < RATE_LIMIT_WINDOW) ++ [now]) ∧
        t ∉ ts.filter (fun x => now - x < RATE_LIMIT_WINDOW) ++ [now]) := by
  constructor
  · intro rl id now ts hmax hwin hfind hfull
    unfold RateLimiter.tryAcquire
    rw [hfind]
    simp only [hwin, hmax]
    rw [if_pos hfull]
    refine ⟨rfl, mapFind?_mapSet_self _ _ _, ?_⟩
    intro t ht
    exact (List.mem_filter.mp ht).1
  · intro rl id now ts t hmax hwin hfind hlen hmem hexp
    have hpt : (decide (now - t < RATE_LIMIT_WINDOW)) = false := by
      simp only [decide_eq_false_iff_not, Nat.not_lt]
      omega
    have hlt : (ts.filter (fun x => now - x < RATE_LIMIT_WINDOW)).length < ts.length :=
      length_filter_lt_of_mem_not hmem hpt
    unfold RateLimiter.tryAcquire
    rw [hfind]
    simp only [hwin, hmax]
    rw [if_neg (by omega)]
    refine ⟨rfl, mapFind?_mapSet_self _ _ _, ?_⟩
    intro hcontra
    rcases List.mem_append.mp hcontra with hin | hin
    · have := (List.mem_filter.mp hin).2
      simp only [decide_eq_true_eq] at this
      omega
    · have : t = now := List.mem_singleton.mp hin
      have hw : (0:Nat) < RATE_LIMIT_WINDOW := by decide
      omega

/-- Witness for C2 at concrete inputs: a full window of 100 timestamps at
time 5 rejects a call at time 6; a single timestamp at time 0 admits a
call at time 60000 again. -/
theorem c2_rate_limiter_sliding_window_witness :
    (({ maxMessages := 100, windowMs := 60000,
        clients := [(1, List.replicate 100 5)] } : RateLimiter).tryAcquire 1 6).1 = false ∧
    (({ maxMessages := 100, windowMs := 60000,
        clients := [(7, [0])] } : RateLimiter).tryAcquire 7 60000).1 = true := by
  constructor
  · exact (c2_rate_limiter_sliding_window.1 _ 1 6 (List.replicate 100 5)
      rfl rfl (by decide) (by decide)).1
  · exact (c2_rate_limiter_sliding_window.2 _ 7 60000 [0] 0
      rfl rfl (by decide) (by decide) (by decide) (by decide)).1

/-- C10: the dispatcher decides receive-all by inspecting only the first
element of a session's filter list: any authenticated session with an
open transport whose filter list has `*` as its first token receives
every broadcast regardless of source, whereas a filter list that does not
start with `*` matches `*` (like any other entry) only as a literal
source tag; and the login parser turns `[*, news]` into the token list
`["*", "news"]` and `[news, *]` into `["news", "*"]`. -/
theorem c10_wildcard_only_first_position :
    (∀ (c : Client) (src : Str), c.authenticated = true → c.wsOpen = true →
      c.sourceFilters.head? = some (lit "*") →
      eligibleForBroadcast c src = true) ∧
    (∀ (c : Client) (src : Str), c.authenticated = true → c.wsOpen = true →
      c.sourceFilters ≠ [] → c.sourceFilters.head? ≠ some (lit "*") →
      (eligibleForBroadcast c src = true ↔ src ∈ c.sourceFilters)) ∧
    parseLoginMessage (lit "login bob [*, news]") = (lit "bob", [lit "*", lit "news"]) ∧
    parseLoginMessage (lit "login bob [news, *]") = (lit "bob", [lit "news", lit "*"]) := by
  refine ⟨?_, ?_, by decide, by decide⟩
  · intro c src hauth hopen hstar
    cases hsf : c.sourceFilters with
    | nil => rw [hsf] at hstar; cases hstar
    | cons a l =>
      rw [hsf] at hstar
      have ha : a = lit "*" := by simpa using hstar
      simp [eligibleForBroadcast, hauth, hopen, hsf, ha]
  · intro c src hauth hopen hne hstar
    cases hsf : c.sourceFilters with
    | nil => exact absurd hsf hne
    | cons a l =>
      rw [hsf] at hstar
      have ha : ¬a = lit "*" := by
        intro h
        exact hstar (by simp [h])
      simp [eligibleForBroadcast, hauth, hopen, hsf, ha]

/-- Witness for C10: a session with filters `["*", "news"]` receives a
`sports` broadcast, while one with `["news", "*"]` does not receive it
but does receive a literal `*`-sourced broadcast. -/
theorem c10_wildcard_only_first_position_witness :
    eligibleForBroadcast
      (mkClient true true (some (lit "alice")) false false [lit "*", lit "news"])
      (lit "sports") = true ∧
    (eligibleForBroadcast
      (mkClient true true (some (lit "alice")) false false [lit "news", lit "*"])
      (lit "sports") = true ↔ lit "sports" ∈ [lit "news", lit "*"]) := by
  constructor
  · exact c10_wildcard_only_first_position.1 _ (lit "sports") rfl rfl rfl
  · exact c10_wildcard_only_first_position.2.1 _ (lit "sports") rfl rfl
      (by decide) (by decide)

/-- C1 (amended): for every broadcast dispatch and every session that is
authenticated with an open transport: an empty filter set receives zero
copies; the receive-all sentinel `["*"]` receives exactly one copy; a
two-tag filter list whose FIRST entry is not `*` receives exactly one
copy iff the lowercased source equals one of its tags (without the
first-entry restriction the claim fails, see the counterexample); in
general each session receives exactly one copy iff it is eligible, and
its `messagesReceived` counter grows by exactly the number of copies it
receives. -/
theorem c1_broadcast_filter_semantics :
    ∀ (reg : Registry) (rawSource : Str) (i : Nat) (c : Client),
      (reg.map Prod.fst).Nodup → (i, c) ∈ reg →
      c.authenticated = true → c.wsOpen = true →
      ((c.sourceFilters = [] →
        (dispatchBroadcast reg (jsToLower rawSource)).2.count i = 0) ∧
       (c.sourceFilters = [lit "*"] →
        (dispatchBroadcast reg (jsToLower rawSource)).2.count i = 1) ∧
       (∀ a b : Str, c.sourceFilters = [a, b] → a ≠ lit "*" →
        (dispatchBroadcast reg (jsToLower rawSource)).2.count i =
          (if jsToLower rawSource = a ∨ jsToLower rawSource = b then 1 else 0)) ∧
       ((dispatchBroadcast reg (jsToLower rawSource)).2.count i =
          (if eligibleForBroadcast c (jsToLower rawSource) then 1 else 0)) ∧
       (findClient (dispatchBroadcast reg (jsToLower rawSource)).1 i =
          some { c with messagesReceived :=
            c.messagesReceived +
              (dispatchBroadcast reg (jsToLower rawSource)).2.count i })) := by
  intro reg rawSource i c hnd hmem hauth hopen
  have hcount : (dispatchBroadcast reg (jsToLower rawSource)).2.count i =
      (if eligibleForBroadcast c (jsToLower rawSource) then 1 else 0) := by
    rw [dispatchBroadcast_eq]
    exact count_filter_keys hnd hmem
  refine ⟨?_, ?_, ?_, hcount, ?_⟩
  · intro hf
    rw [hcount]
    simp [eligibleForBroadcast, hf]
  · intro hf
    rw [hcount]
    simp [eligibleForBroadcast, hauth, hopen, hf]
  · intro a b hf hastar
    rw [hcount]
    by_cases hsrc : jsToLower rawSource = a ∨ jsToLower rawSource = b
    · rw [if_pos hsrc, if_pos]
      simp only [eligibleForBroadcast, hauth, hopen, hf]
      rcases hsrc with h | h <;> simp [h]
    · rw [if_neg hsrc, if_neg]
      push_neg at hsrc
      simp [eligibleForBroadcast, hauth, hopen, hf, hastar, hsrc.1, hsrc.2]
  · rw [hcount, dispatchBroadcast_eq]
    dsimp only
    rw [findClient_map_val reg
      (fun d => if eligibleForBroadcast d (jsToLower rawSource) then
        { d with messagesReceived := d.messagesReceived + 1 } else d) i,
      findClient_of_mem hnd hmem]
    by_cases he : eligibleForBroadcast c (jsToLower rawSource)
    · simp [he]
    · simp [he]

/-- C1 counterexample: the original tag-list reading fails when the first
tag is `*`.  The session filters are the two-tag list `["*", "news"]`
(neither the empty set nor the sentinel `["*"]`), the broadcast has
lowercased source `sports`, which equals neither tag, yet the session
receives one copy. -/
theorem c1_broadcast_filter_semantics_cex :
    (mkClient true true (some (lit "alice")) false false
        [lit "*", lit "news"]).sourceFilters ≠ [] ∧
    (mkClient true true (some (lit "alice")) false false
        [lit "*", lit "news"]).sourceFilters ≠ [lit "*"] ∧
    jsToLower (lit "Sports") ≠ lit "*" ∧
    jsToLower (lit "Sports") ≠ lit "news" ∧
    (dispatchBroadcast
      [(1, mkClient true true (some (lit "alice")) false false
        [lit "*", lit "news"])]
      (jsToLower (lit "Sports"))).2.count 1 = 1 := by decide

/-- Witness for C1 at a concrete two-session registry: the `["news",
"sports"]` session receives the `News` broadcast exactly once and its
counter becomes 1; the receive-nothing session receives zero copies. -/
theorem c1_broadcast_filter_semantics_witness :
    (dispatchBroadcast
      [(1, mkClient true true (some (lit "alice")) false false
          [lit "news", lit "sports"]),
       (2, mkClient true true (some (lit "bob")) false false [])]
      (jsToLower (lit "News"))).2.count 1 =
      (if jsToLower (lit "News") = lit "news" ∨ jsToLower (lit "News") = lit "sports"
       then 1 else 0) ∧
    (dispatchBroadcast
      [(1, mkClient true true (some (lit "alice")) false false
          [lit "news", lit "sports"]),
       (2, mkClient true true (some (lit "bob")) false false [])]
      (jsToLower (lit "News"))).2.count 2 = 0 := by
  constructor
  · exact (c1_broadcast_filter_semantics
      [(1, mkClient true true (some (lit "alice")) false false
          [lit "news", lit "sports"]),
       (2, mkClient true true (some (lit "bob")) false false [])]
      (lit "News") 1
      (mkClient true true (some (lit "alice")) false false
          [lit "news", lit "sports"])
      (by decide) (by decide) rfl rfl).2.2.1 (lit "news") (lit "sports") rfl (by decide)
  · exact (c1_broadcast_filter_semantics
      [(1, mkClient true true (some (lit "alice")) false false
          [lit "news", lit "sports"]),
       (2, mkClient true true (some (lit "bob")) false false [])]
      (lit "News") 2
      (mkClient true true (some (lit "bob")) false false [])
      (by decide) (by decide) rfl rfl).1 rfl

/-- C4 (amended): the admin ban command deactivates the target in the
whitelist store and logs a `banned` event for every live session with
that username, but it kicks (notifies and closes with the
policy-violation code 1008) only the FIRST matching live session: exactly
one close is emitted when any session matches, every emitted close uses
code 1008 and targets a session of the banned username. -/
theorem c4_ban_deactivates_and_kicks_first :
    ∀ (db : DbState) (reg : Registry) (u : Str),
      ((banUser db reg u).1.isUserWhitelisted u = false) ∧
      ((banUser db reg u).2.countP
          (fun o => match o with
            | Output.logEvent _ _ et _ => et == lit "banned"
            | _ => false) =
        (reg.filter (fun p => p.2.username == some u)).length) ∧
      ((banUser db reg u).2.countP
          (fun o => match o with | Output.close _ _ _ => true | _ => false) =
        if reg.any (fun p => p.2.username == some u) then 1 else 0) ∧
      (∀ (i code : Nat) (r : Str), Output.close i code r ∈ (banUser db reg u).2 →
        code = 1008 ∧ ∃ c : Client, (i, c) ∈ reg ∧ c.username = some u) := by
  intro db reg u
  refine ⟨isUserWhitelisted_removeUser db u, ?_, ?_, ?_⟩
  · unfold banUser
    rw [List.countP_append, kickUser_countP_banned, Nat.add_zero, List.countP_map]
    rw [List.countP_eq_length.mpr (fun p _ => by simp)]
  · unfold banUser
    rw [List.countP_append, kickUser_close_count]
    have hz : ((reg.filter (fun p => p.2.username == some u)).map
        (fun p => Output.logEvent u p.2.ip (lit "banned") (some (lit "Banned by admin")))).countP
          (fun o => match o with | Output.close _ _ _ => true | _ => false) = 0 := by
      rw [List.countP_eq_zero]
      intro a ha
      obtain ⟨q, _, hq⟩ := List.mem_map.mp ha
      rw [← hq]
      simp
    rw [hz, Nat.zero_add]
  · intro i code r hmem
    unfold banUser at hmem
    rcases List.mem_append.mp hmem with hin | hin
    · obtain ⟨q, _, hq⟩ := List.mem_map.mp hin
      cases hq
    · exact kickUser_close_mem reg u (lit "Banned by admin") i code r hin

/-- C4 counterexample: with two live sessions for `alice`, `ban` emits a
single transport close, so it does not kick every live session for the
username. -/
theorem c4_ban_deactivates_and_kicks_first_cex :
    ([(1, mkClient true true (some (lit "alice")) false false [lit "*"]),
      (2, mkClient true true (some (lit "alice")) false false [lit "*"])].filter
        (fun p => p.2.username == some (lit "alice"))).length = 2 ∧
    (banUser ⟨[(lit "alice", ⟨true, false, false⟩)]⟩
      [(1, mkClient true true (some (lit "alice")) false false [lit "*"]),
       (2, mkClient true true (some (lit "alice")) false false [lit "*"])]
      (lit "alice")).2.countP
        (fun o => match o with | Output.close _ _ _ => true | _ => false) = 1 := by
  decide

/-- Witness for C4 at a concrete store and registry. -/
theorem c4_ban_deactivates_and_kicks_first_witness :
    ((banUser ⟨[(lit "alice", ⟨true, false, false⟩)]⟩
      [(1, mkClient true true (some (lit "alice")) false false [lit "*"])]
      (lit "alice")).1.isUserWhitelisted (lit "alice") = false) ∧
    ((banUser ⟨[(lit "alice", ⟨true, false, false⟩)]⟩
      [(1, mkClient true true (some (lit "alice")) false false [lit "*"])]
      (lit "alice")).2.countP
        (fun o => match o with | Output.close _ _ _ => true | _ => false) =
      if [(1, mkClient true true (some (lit "alice")) false false [lit "*"])].any
          (fun p => p.2.username == some (lit "alice")) then 1 else 0) :=
  ⟨(c4_ban_deactivates_and_kicks_first _ _ _).1,
   (c4_ban_deactivates_and_kicks_first _ _ _).2.2.1⟩

/-- C9: the admin `add_broadcaster` command grants the broadcaster role
in the whitelist store and immediately sets `isBroadcaster` on every
currently-connected session with the target username, sending each such
session a `status_update` envelope, all without those sessions logging in
again (only the `isBroadcaster` field of a matching session changes). -/
theorem c9_add_broadcaster_live_update :
    ∀ (adminPassword : Option Str) (db : DbState) (st : ServerState)
      (clientId : Nat) (message : Str) (client : Client) (pw target : Str),
      findClient st.clients clientId = some client →
      client.isAdmin = true →
      (jsSplit ' ' message).get? 1 = some (lit "add_broadcaster") →
      (jsSplit ' ' message).get? 2 = some pw →
      (jsSplit ' ' message).get? 3 = some target →
      target ≠ [] →
      (adminPassword = none ∨ adminPassword = some pw) →
      ((handleAdminCommand adminPassword db st clientId message).1.isBroadcaster
          target = true) ∧
      ((handleAdminCommand adminPassword db st clientId message).2.1.clients =
        (updateConnectedUserStatus st.clients target true).1) ∧
      (∀ (j : Nat) (c : Client), (j, c) ∈ st.clients → c.username = some target →
        (j, { c with isBroadcaster := true }) ∈
            (handleAdminCommand adminPassword db st clientId message).2.1.clients ∧
          Output.send j (OutMsg.statusUpdate true) ∈
            (handleAdminCommand adminPassword db st clientId message).2.2) := by
  intro adminPassword db st clientId message client pw target
  intro hfind hadmin hcmd hpw htgt htne hpwok
  have htne2 : target.isEmpty = false := by
    cases target with
    | nil => exact absurd rfl htne
    | cons a l => rfl
  have hred : handleAdminCommand adminPassword db st clientId message =
      (db.addBroadcaster target,
       { st with clients := (updateConnectedUserStatus st.clients target true).1 },
       (updateConnectedUserStatus st.clients target true).2 ++
         [Output.send clientId (OutMsg.adminResponse
           (target ++ lit " granted broadcaster permissions"))]) := by
    have h1 : (some (lit "add_broadcaster") == some (lit "add_user")) = false := by decide
    have h2 : (some (lit "add_broadcaster") == some (lit "remove_user")) = false := by decide
    have h3 : (some (lit "add_broadcaster") == some (lit "add_broadcaster")) = true := by decide
    unfold handleAdminCommand
    rw [hfind]
    rcases hpwok with h | h
    · subst h
      simp only [hadmin, Bool.not_true, Bool.false_eq_true, if_false, hcmd, htgt,
        htne2, h1, h2, h3, if_true]
    · subst h
      simp only [hadmin, Bool.not_true, Bool.false_eq_true, if_false, hcmd, hpw, htgt,
        htne2, beq_self_eq_true, Bool.not_true, h1, h2, h3, if_true]
  rw [hred]
  refine ⟨isBroadcaster_addBroadcaster db target, rfl, ?_⟩
  intro j c hmem hcu
  constructor
  · rw [updateConnectedUserStatus_fst]
    have : (fun p => ((p : Nat × Client).1,
        if p.2.username == some target then { p.2 with isBroadcaster := true } else p.2))
          (j, c) = (j, { c with isBroadcaster := true }) := by
      simp [hcu]
    exact this ▸ List.mem_map_of_mem _ hmem
  · apply List.mem_append_left
    rw [updateConnectedUserStatus_snd]
    have hmf : (j, c) ∈ st.clients.filter (fun p => p.2.username == some target) :=
      List.mem_filter.mpr ⟨hmem, by simp [hcu]⟩
    exact List.mem_map_of_mem _ hmf

/-- Witness for C9: a concrete admin session issuing
`admin add_broadcaster pw bob` while `bob` is connected. -/
theorem c9_add_broadcaster_live_update_witness :
    ((handleAdminCommand (some (lit "pw")) ⟨[]⟩
        ⟨[(1, mkClient true true (some (lit "root")) false true [lit "*"]),
          (2, mkClient true true (some (lit "bob")) false false [lit "*"])],
         ⟨0, 0, 0, 0, 0, 0⟩, []⟩
        1 (lit "admin add_broadcaster pw bob")).1.isBroadcaster (lit "bob") = true) ∧
    Output.send 2 (OutMsg.statusUpdate true) ∈
      (handleAdminCommand (some (lit "pw")) ⟨[]⟩
        ⟨[(1, mkClient true true (some (lit "root")) false true [lit "*"]),
          (2, mkClient true true (some (lit "bob")) false false [lit "*"])],
         ⟨0, 0, 0, 0, 0, 0⟩, []⟩
        1 (lit "admin add_broadcaster pw bob")).2.2 := by
  have h := c9_add_broadcaster_live_update (some (lit "pw")) ⟨[]⟩
    ⟨[(1, mkClient true true (some (lit "root")) false true [lit "*"]),
      (2, mkClient true true (some (lit "bob")) false false [lit "*"])],
     ⟨0, 0, 0, 0, 0, 0⟩, []⟩
    1 (lit "admin add_broadcaster pw bob")
    (mkClient true true (some (lit "root")) false true [lit "*"])
    (lit "pw") (lit "bob")
    (by decide) rfl (by decide) (by decide) (by decide) (by decide) (Or.inr rfl)
  exact ⟨h.1, (h.2.2 2 (mkClient true true (some (lit "bob")) false false [lit "*"])
    (by decide) rfl).2⟩

/-- C7: a broadcast submission by a broadcaster whose payload fails
validation (a required field missing, non-string, or empty after
trimming, or a url the URL parser rejects) draws a single validation
error naming the first offending field or reason, and nothing else
happens: the returned state is exactly the input state (no recipient
deliveries, no `messagesReceived` change, unchanged broadcast counters
and recent-broadcast ring).  The later conjuncts pin down that the
reported error is that of the first offending field in the order title,
url, icon, source, image, with the URL-format check last. -/
theorem c7_invalid_broadcast_rejected :
    (∀ (validUrl : Str → Bool) (st : ServerState) (clientId : Nat)
      (client : Client) (data : List (Str × JVal)) (e : Str),
      findClient st.clients clientId = some client →
      client.isBroadcaster = true →
      validateBroadcastMessage validUrl data = some e →
      handleBroadcast validUrl st clientId data =
        (st, [Output.send clientId (OutMsg.errorMsg (lit "Invalid broadcast: " ++ e))])) ∧
    (∀ (validUrl : Str → Bool) (data : List (Str × JVal)) (e : Str),
      checkField data (lit "title") = some e →
      validateBroadcastMessage validUrl data = some e) ∧
    (∀ (validUrl : Str → Bool) (data : List (Str × JVal)) (e : Str),
      checkField data (lit "title") = none →
      checkField data (lit "url") = some e →
      validateBroadcastMessage validUrl data = some e) ∧
    (∀ (validUrl : Str → Bool) (data : List (Str × JVal)) (e : Str),
      checkField data (lit "title") = none →
      checkField data (lit "url") = none →
      checkField data (lit "icon") = some e →
      validateBroadcastMessage validUrl data = some e) ∧
    (∀ (validUrl : Str → Bool) (data : List (Str × JVal)) (e : Str),
      checkField data (lit "title") = none →
      checkField data (lit "url") = none →
      checkField data (lit "icon") = none →
      checkField data (lit "source") = some e →
      validateBroadcastMessage validUrl data = some e) ∧
    (∀ (validUrl : Str → Bool) (data : List (Str × JVal)) (e : Str),
      checkField data (lit "title") = none →
      checkField data (lit "url") = none →
      checkField data (lit "icon") = none →
      checkField data (lit "source") = none →
      checkField data (lit "image") = some e →
      validateBroadcastMessage validUrl data = some e) ∧
    (∀ (validUrl : Str → Bool) (data : List (Str × JVal)) (u : Str),
      checkField data (lit "title") = none →
      checkField data (lit "url") = none →
      checkField data (lit "icon") = none →
      checkField data (lit "source") = none →
      checkField data (lit "image") = none →
      jsObjGet data (lit "url") = some (JVal.str u) →
      validUrl u = false →
      validateBroadcastMessage validUrl data = some (lit "Invalid URL format")) := by
  refine ⟨?_, ?_, ?_, ?_, ?_, ?_, ?_⟩
  · intro validUrl st clientId client data e hfind hbc hval
    unfold handleBroadcast
    rw [hfind, hval]
    simp [hbc]
  · intro validUrl data e h1
    unfold validateBroadcastMessage requiredFields
    simp only [List.findSome?_cons, h1]
  · intro validUrl data e h1 h2
    unfold validateBroadcastMessage requiredFields
    simp only [List.findSome?_cons, h1, h2]
  · intro validUrl data e h1 h2 h3
    unfold validateBroadcastMessage requiredFields
    simp only [List.findSome?_cons, h1, h2, h3]
  · intro validUrl data e h1 h2 h3 h4
    unfold validateBroadcastMessage requiredFields
    simp only [List.findSome?_cons, h1, h2, h3, h4]
  · intro validUrl data e h1 h2 h3 h4 h5
    unfold validateBroadcastMessage requiredFields
    simp only [List.findSome?_cons, h1, h2, h3, h4, h5]
  · intro validUrl data u h1 h2 h3 h4 h5 hurl hbad
    unfold validateBroadcastMessage requiredFields
    simp only [List.findSome?_cons, h1, h2, h3, h4, h5, List.findSome?_nil, hurl, hbad,
      Bool.false_eq_true, if_false]

/-- Witness for C7: a payload with a non-string `title` and a missing
`image` is rejected with the `title` error and the handler returns the
state unchanged with the single error send. -/
theorem c7_invalid_broadcast_rejected_witness :
    handleBroadcast (fun _ => true)
      ⟨[(1, mkClient true true (some (lit "bob")) true false [lit "*"])],
       ⟨0, 0, 0, 0, 0, 0⟩, []⟩
      1 [(lit "title", JVal.other)] =
      (⟨[(1, mkClient true true (some (lit "bob")) true false [lit "*"])],
        ⟨0, 0, 0, 0, 0, 0⟩, []⟩,
       [Output.send 1 (OutMsg.errorMsg
         (lit "Invalid broadcast: " ++ (lit "Field '" ++ lit "title" ++ lit "' must be a string")))]) :=
  c7_invalid_broadcast_rejected.1 (fun _ => true)
    ⟨[(1, mkClient true true (some (lit "bob")) true false [lit "*"])],
     ⟨0, 0, 0, 0, 0, 0⟩, []⟩
    1 (mkClient true true (some (lit "bob")) true false [lit "*"])
    [(lit "title", JVal.other)]
    (lit "Field '" ++ lit "title" ++ lit "' must be a string")
    (by decide) rfl (by decide)

/-- C8: a login whose username passes format validation but is not
whitelisted draws the access-denied error, a transport close with the
policy-violation code 1008, an `auth_fail` event, and bumps the total
auth-failure counter by exactly one, leaving the registry untouched. -/
theorem c8_non_whitelisted_login_close_and_count :
    ∀ (db : DbState) (st : ServerState) (clientId : Nat) (message : Str)
      (client : Client) (uname : Str) (fs : List Str) (vu : Str),
      findClient st.clients clientId = some client →
      client.authenticated = false →
      parseLoginMessage message = (uname, fs) →
      validateUsername uname = Except.ok vu →
      db.isUserWhitelisted vu = false →
      handleLogin db st clientId message =
        ({ st with stats :=
            { st.stats with totalAuthFailures := st.stats.totalAuthFailures + 1 } },
         [Output.logEvent vu client.ip (lit "auth_fail") (some (lit "Not whitelisted")),
          Output.send clientId (OutMsg.errorMsg (lit "Access denied. Username not whitelisted.")),
          Output.close clientId 1008 (lit "Not whitelisted")]) := by
  intro db st clientId message client uname fs vu hfind hnoauth hparse hvu hwl
  unfold handleLogin
  rw [hfind]
  simp only [hnoauth, Bool.false_eq_true, if_false, hparse, hvu, hwl, Bool.not_false,
    if_true]

/-- Witness for C8 at a concrete empty store and one-session registry. -/
theorem c8_non_whitelisted_login_close_and_count_witness :
    handleLogin ⟨[]⟩
      ⟨[(3, mkClient true false none false false [lit "*"])], ⟨1, 0, 0, 0, 0, 0⟩, []⟩
      3 (lit "login alice") =
      (⟨[(3, mkClient true false none false false [lit "*"])], ⟨1, 0, 0, 0, 1, 0⟩, []⟩,
       [Output.logEvent (lit "alice") (lit "127.0.0.1") (lit "auth_fail")
          (some (lit "Not whitelisted")),
        Output.send 3 (OutMsg.errorMsg (lit "Access denied. Username not whitelisted.")),
        Output.close 3 1008 (lit "Not whitelisted")]) :=
  c8_non_whitelisted_login_close_and_count ⟨[]⟩
    ⟨[(3, mkClient true false none false false [lit "*"])], ⟨1, 0, 0, 0, 0, 0⟩, []⟩
    3 (lit "login alice") (mkClient true false none false false [lit "*"])
    (lit "alice") [lit "*"] (lit "alice")
    (by decide) rfl (by decide) rfl rfl

/-- C3: a whitelisted login while 5 sessions are already authenticated
under the same username is rejected with the max-connections error and a
policy-violation (1008) transport close, bumping the auth-failure
counter; with fewer than 5 such sessions and every other check passing,
the login succeeds: the handler logs a `connect` event, answers
`auth_success`, and the session becomes authenticated with the resolved
username, store roles and parsed filters. -/
theorem c3_connection_cap :
    ∀ (db : DbState) (st : ServerState) (clientId : Nat) (message : Str)
      (client : Client) (uname : Str) (fs : List Str) (vu : Str),
      findClient st.clients clientId = some client →
      client.authenticated = false →
      parseLoginMessage message = (uname, fs) →
      validateUsername uname = Except.ok vu →
      db.isUserWhitelisted vu = true →
      ((countConnectionsForUsername st.clients vu = 5 →
        handleLogin db st clientId message =
          ({ st with stats :=
              { st.stats with totalAuthFailures := st.stats.totalAuthFailures + 1 } },
           [Output.logEvent vu client.ip (lit "auth_fail")
              (some (lit "Max connections exceeded")),
            Output.send clientId (OutMsg.errorMsg
              (lit "Maximum concurrent connections (5) reached for this username.")),
            Output.close clientId 1008 (lit "Max connections exceeded")])) ∧
       (countConnectionsForUsername st.clients vu < 5 →
        (handleLogin db st clientId message).2 =
          [Output.logEvent vu client.ip (lit "connect") none,
           Output.send clientId (OutMsg.authSuccess vu (db.isBroadcaster vu)
             (db.isAdmin vu) fs (welcomeMessage vu fs))] ∧
        findClient (handleLogin db st clientId message).1.clients clientId =
          some { client with
            authenticated := true, username := some vu,
            isBroadcaster := db.isBroadcaster vu, isAdmin := db.isAdmin vu,
            sourceFilters := fs, authTimerArmed := false })) := by
  intro db st clientId message client uname fs vu hfind hnoauth hparse hvu hwl
  constructor
  · intro hcount
    unfold handleLogin
    rw [hfind]
    simp only [hnoauth, Bool.false_eq_true, if_false, hparse, hvu, hwl, Bool.not_true,
      hcount, MAX_CONNECTIONS_PER_USER, Nat.le_refl, if_true]
  · intro hcount
    have hnotle : ¬(MAX_CONNECTIONS_PER_USER ≤ countConnectionsForUsername st.clients vu) := by
      unfold MAX_CONNECTIONS_PER_USER
      omega
    unfold handleLogin
    rw [hfind]
    simp only [hnoauth, Bool.false_eq_true, if_false, hparse, hvu, hwl, Bool.not_true,
      hnotle, if_true]
    refine ⟨by trivial, ?_⟩
    rw [findClient_setClient_self, hfind]
    rfl

/-- Witness for C3: the sixth concurrent `alice` login is refused while a
first login in an otherwise busy registry succeeds. -/
theorem c3_connection_cap_witness :
    (handleLogin ⟨[(lit "alice", ⟨true, false, false⟩)]⟩
      ⟨[(1, mkClient true true (some (lit "alice")) false false [lit "*"]),
        (2, mkClient true true (some (lit "alice")) false false [lit "*"]),
        (3, mkClient true true (some (lit "alice")) false false [lit "*"]),
        (4, mkClient true true (some (lit "alice")) false false [lit "*"]),
        (5, mkClient true true (some (lit "alice")) false false [lit "*"]),
        (6, mkClient true false none false false [lit "*"])],
       ⟨6, 0, 0, 0, 0, 5⟩, []⟩
      6 (lit "login alice")).2 =
      [Output.logEvent (lit "alice") (lit "127.0.0.1") (lit "auth_fail")
         (some (lit "Max connections exceeded")),
       Output.send 6 (OutMsg.errorMsg
         (lit "Maximum concurrent connections (5) reached for this username.")),
       Output.close 6 1008 (lit "Max connections exceeded")] ∧
    (handleLogin ⟨[(lit "alice", ⟨true, false, false⟩)]⟩
      ⟨[(6, mkClient true false none false false [lit "*"])], ⟨1, 0, 0, 0, 0, 0⟩, []⟩
      6 (lit "login alice")).2 =
      [Output.logEvent (lit "alice") (lit "127.0.0.1") (lit "connect") none,
       Output.send 6 (OutMsg.authSuccess (lit "alice") false false [lit "*"]
         (welcomeMessage (lit "alice") [lit "*"]))] := by
  constructor
  · have h := (c3_connection_cap ⟨[(lit "alice", ⟨true, false, false⟩)]⟩
      ⟨[(1, mkClient true true (some (lit "alice")) false false [lit "*"]),
        (2, mkClient true true (some (lit "alice")) false false [lit "*"]),
        (3, mkClient true true (some (lit "alice")) false false [lit "*"]),
        (4, mkClient true true (some (lit "alice")) false false [lit "*"]),
        (5, mkClient true true (some (lit "alice")) false false [lit "*"]),
        (6, mkClient true false none false false [lit "*"])],
       ⟨6, 0, 0, 0, 0, 5⟩, []⟩
      6 (lit "login alice") (mkClient true false none false false [lit "*"])
      (lit "alice") [lit "*"] (lit "alice")
      (by decide) rfl (by decide) rfl rfl).1 (by decide)
    rw [h]
    decide
  · exact ((c3_connection_cap ⟨[(lit "alice", ⟨true, false, false⟩)]⟩
      ⟨[(6, mkClient true false none false false [lit "*"])], ⟨1, 0, 0, 0, 0, 0⟩, []⟩
      6 (lit "login alice") (mkClient true false none false false [lit "*"])
      (lit "alice") [lit "*"] (lit "alice")
      (by decide) rfl (by decide) rfl rfl).2 (by decide)).1

/-- The registry after `handleLogin` is either untouched or the single
authenticated-successfully session written back with
`authenticated := true`. -/
theorem handleLogin_clients_cases (db : DbState) (st : ServerState)
    (i : Nat) (msg : Str) :
    (handleLogin db st i msg).1.clients = st.clients ∨
    ∃ (client : Client) (vu : Str),
      findClient st.clients i = some client ∧
      (handleLogin db st i msg).1.clients =
        setClient st.clients i { client with
          authenticated := true, username := some vu,
          isBroadcaster := db.isBroadcaster vu, isAdmin := db.isAdmin vu,
          sourceFilters := (parseLoginMessage msg).2, authTimerArmed := false } := by
  cases hf : findClient st.clients i with
  | none => left; simp [handleLogin, hf]
  | some client =>
    by_cases ha : client.authenticated
    · left; simp [handleLogin, hf, ha]
    · cases hv : validateUsername (parseLoginMessage msg).1 with
      | error e => left; simp [handleLogin, hf, ha, hv]
      | ok vu =>
        by_cases hw : db.isUserWhitelisted vu
        · by_cases hc : MAX_CONNECTIONS_PER_USER ≤ countConnectionsForUsername st.clients vu
          · left; simp [handleLogin, hf, ha, hv, hw, hc]
          · right
            exact ⟨client, vu, rfl, by simp [handleLogin, hf, ha, hv, hw, hc]⟩
        · left; simp [handleLogin, hf, ha, hv, hw]

/-- The registry after `handleAdminCommand` is either untouched or the
result of a live role update for some username. -/
theorem handleAdminCommand_clients_cases (pw : Option Str) (db : DbState)
    (st : ServerState) (i : Nat) (msg : Str) :
    (handleAdminCommand pw db st i msg).2.1.clients = st.clients ∨
    ∃ (t : Str) (b : Bool),
      (handleAdminCommand pw db st i msg).2.1.clients =
        (updateConnectedUserStatus st.clients t b).1 := by
  cases hf : findClient st.clients i with
  | none => left; simp [handleAdminCommand, hf]
  | some client =>
    by_cases ha : client.isAdmin
    · by_cases hpf : (match pw with
          | some pw2 => !((jsSplit ' ' msg)[2]? == some pw2)
          | none => false) = true
      · left; simp [handleAdminCommand, hf, ha, hpf]
      · cases ht : (jsSplit ' ' msg)[3]? with
        | none => left; simp [handleAdminCommand, hf, ha, hpf, ht]
        | some t =>
          by_cases hte : t = []
          · left; simp [handleAdminCommand, hf, ha, hpf, ht, hte]
          · by_cases h1 : (jsSplit ' ' msg)[1]? = some (lit "add_user")
            · left; simp [handleAdminCommand, hf, ha, hpf, ht, hte, h1]
            · by_cases h2 : (jsSplit ' ' msg)[1]? = some (lit "remove_user")
              · left
                simp [handleAdminCommand, hf, ha, hpf, ht, hte, h1, h2, (by decide : ¬(lit "remove_user" = lit "add_user"))]
              · by_cases h3 : (jsSplit ' ' msg)[1]? = some (lit "add_broadcaster")
                · right
                  exact ⟨t, true,
                    by simp [handleAdminCommand, hf, ha, hpf, ht, hte, h1, h2, h3, (by decide : ¬(lit "add_broadcaster" = lit "add_user")), (by decide : ¬(lit "add_broadcaster" = lit "remove_user"))]⟩
                · by_cases h4 : (jsSplit ' ' msg)[1]? = some (lit "remove_broadcaster")
                  · right
                    exact ⟨t, false,
                      by simp [handleAdminCommand, hf, ha, hpf, ht, hte, h1, h2, h3, h4, (by decide : ¬(lit "remove_broadcaster" = lit "add_user")), (by decide : ¬(lit "remove_broadcaster" = lit "remove_user")), (by decide : ¬(lit "remove_broadcaster" = lit "add_broadcaster"))]⟩
                  · by_cases h5 : (jsSplit ' ' msg)[1]? = some (lit "kick")
                    · left
                      simp [handleAdminCommand, hf, ha, hpf, ht, hte, h1, h2, h3, h4, h5,
                        (by decide : ¬(lit "kick" = lit "add_user")), (by decide : ¬(lit "kick" = lit "remove_user")), (by decide : ¬(lit "kick" = lit "add_broadcaster")), (by decide : ¬(lit "kick" = lit "remove_broadcaster"))]
                    · by_cases h6 : (jsSplit ' ' msg)[1]? = some (lit "ban")
                      · left
                        simp [handleAdminCommand, hf, ha, hpf, ht, hte, h1, h2, h3, h4, h5, h6,
                          (by decide : ¬(lit "ban" = lit "add_user")), (by decide : ¬(lit "ban" = lit "remove_user")), (by decide : ¬(lit "ban" = lit "add_broadcaster")), (by decide : ¬(lit "ban" = lit "remove_broadcaster")), (by decide : ¬(lit "ban" = lit "kick"))]
                      · by_cases h7 : (jsSplit ' ' msg)[1]? = some (lit "user_detail")
                        · left
                          simp [handleAdminCommand, hf, ha, hpf, ht, hte, h1, h2, h3, h4, h5,
                            h6, h7, (by decide : ¬(lit "user_detail" = lit "add_user")), (by decide : ¬(lit "user_detail" = lit "remove_user")), (by decide : ¬(lit "user_detail" = lit "add_broadcaster")), (by decide : ¬(lit "user_detail" = lit "remove_broadcaster")), (by decide : ¬(lit "user_detail" = lit "kick")), (by decide : ¬(lit "user_detail" = lit "ban"))]
                        · by_cases h8 : (jsSplit ' ' msg)[1]? = some (lit "connection_stats")
                          · left
                            simp [handleAdminCommand, hf, ha, hpf, ht, hte, h1, h2, h3, h4, h5,
                              h6, h7, h8, (by decide : ¬(lit "connection_stats" = lit "add_user")), (by decide : ¬(lit "connection_stats" = lit "remove_user")), (by decide : ¬(lit "connection_stats" = lit "add_broadcaster")), (by decide : ¬(lit "connection_stats" = lit "remove_broadcaster")), (by decide : ¬(lit "connection_stats" = lit "kick")), (by decide : ¬(lit "connection_stats" = lit "ban")), (by decide : ¬(lit "connection_stats" = lit "user_detail"))]
                          · left
                            simp [handleAdminCommand, hf, ha, hpf, ht, hte, h1, h2, h3, h4, h5,
                              h6, h7, h8]
    · left; simp [handleAdminCommand, hf, ha]

/-- The registry after `handleBroadcast` is either untouched or the
dispatch fan-out transformation (which only bumps received counters). -/
theorem handleBroadcast_clients_cases (validUrl : Str → Bool) (st : ServerState)
    (i : Nat) (data : List (Str × JVal)) :
    (handleBroadcast validUrl st i data).1.clients = st.clients ∨
    ∃ src : Str,
      (handleBroadcast validUrl st i data).1.clients =
        (dispatchBroadcast st.clients src).1 := by
  cases hf : findClient st.clients i with
  | none => left; simp [handleBroadcast, hf]
  | some client =>
    by_cases hb : client.isBroadcaster
    · cases hv : validateBroadcastMessage validUrl data with
      | some e => left; simp [handleBroadcast, hf, hb, hv]
      | none =>
        right
        refine ⟨jsToLower (match jsObjGet data (lit "source") with
          | some (JVal.str str0) => str0
          | _ => []), ?_⟩
        simp [handleBroadcast, hf, hb, hv]
    · left; simp [handleBroadcast, hf, hb]

/-- Lookup in the registry with one id filtered out (the
`handleDisconnect` deletion). -/
theorem findClient_filter_ne (reg : Registry) (i j : Nat) :
    findClient (reg.filter (fun p => !(p.1 == i))) j =
      if j = i then none else findClient reg j := by
  induction reg with
  | nil => by_cases h : j = i <;> simp [findClient, h]
  | cons p rest ih =>
    obtain ⟨k, d⟩ := p
    rw [List.filter_cons]
    by_cases hk : k = i
    · subst hk
      simp only [beq_self_eq_true, Bool.not_true, Bool.false_eq_true, if_false]
      rw [ih]
      by_cases hj : j = k
      · rw [if_pos hj, if_pos hj]
      · rw [if_neg hj, if_neg hj, findClient_cons, if_neg (fun h => hj h.symm)]
    · simp only [(by simp [hk] : (!(k == i)) = true), if_true]
      rw [findClient_cons, findClient_cons]
      by_cases hkj : k = j
      · subst hkj
        rw [if_pos rfl, if_pos rfl, if_neg (fun h => hk h)]
      · rw [if_neg hkj, if_neg hkj, ih]

/-- C5: the `authenticated` flag never reverts on a live session: after
`handleLogin`, `handleBroadcast`, `handleAdminCommand`,
`handleDisconnect` or a live role update, any session still present that
was authenticated before is still authenticated; and a login on an
already-authenticated session is answered with an error and changes
nothing. -/
theorem c5_authenticated_never_reverts :
    (∀ (db : DbState) (st : ServerState) (i : Nat) (msg : Str) (j : Nat)
      (c c2 : Client),
      findClient st.clients j = some c → c.authenticated = true →
      findClient (handleLogin db st i msg).1.clients j = some c2 →
      c2.authenticated = true) ∧
    (∀ (validUrl : Str → Bool) (st : ServerState) (i : Nat)
      (data : List (Str × JVal)) (j : Nat) (c c2 : Client),
      findClient st.clients j = some c → c.authenticated = true →
      findClient (handleBroadcast validUrl st i data).1.clients j = some c2 →
      c2.authenticated = true) ∧
    (∀ (pw : Option Str) (db : DbState) (st : ServerState) (i : Nat) (msg : Str)
      (j : Nat) (c c2 : Client),
      findClient st.clients j = some c → c.authenticated = true →
      findClient (handleAdminCommand pw db st i msg).2.1.clients j = some c2 →
      c2.authenticated = true) ∧
    (∀ (st : ServerState) (i j : Nat) (c c2 : Client),
      findClient st.clients j = some c → c.authenticated = true →
      findClient (handleDisconnect st i).1.clients j = some c2 →
      c2.authenticated = true) ∧
    (∀ (reg : Registry) (u : Str) (b : Bool) (j : Nat) (c c2 : Client),
      findClient reg j = some c → c.authenticated = true →
      findClient (updateConnectedUserStatus reg u b).1 j = some c2 →
      c2.authenticated = true) ∧
    (∀ (db : DbState) (st : ServerState) (i : Nat) (msg : Str) (client : Client),
      findClient st.clients i = some client → client.authenticated = true →
      handleLogin db st i msg =
        (st, [Output.send i (OutMsg.errorMsg (lit "Already authenticated"))])) := by
  have hupd : ∀ (reg : Registry) (u : Str) (b : Bool) (j : Nat) (c c2 : Client),
      findClient reg j = some c → c.authenticated = true →
      findClient (updateConnectedUserStatus reg u b).1 j = some c2 →
      c2.authenticated = true := by
    intro reg u b
    induction reg with
    | nil =>
      intro j c c2 hfind _ _
      simp [findClient] at hfind
    | cons p rest ih =>
      obtain ⟨k, d⟩ := p
      intro j c c2 hfind hauth h2
      rw [findClient_cons] at hfind
      by_cases hm : (d.username == some u) = true
      · simp only [updateConnectedUserStatus, hm, if_true] at h2
        rw [findClient_cons] at h2
        by_cases hk : k = j
        · rw [if_pos hk] at hfind h2
          cases hfind
          cases h2
          exact hauth
        · rw [if_neg hk] at hfind h2
          exact ih j c c2 hfind hauth h2
      · simp only [updateConnectedUserStatus, hm, Bool.false_eq_true, if_false] at h2
        rw [findClient_cons] at h2
        by_cases hk : k = j
        · rw [if_pos hk] at hfind h2
          cases hfind
          cases h2
          exact hauth
        · rw [if_neg hk] at hfind h2
          exact ih j c c2 hfind hauth h2
  refine ⟨?_, ?_, ?_, ?_, hupd, ?_⟩
  · intro db st i msg j c c2 hfind hauth h2
    rcases handleLogin_clients_cases db st i msg with hcl | ⟨client, vu, hfc, hcl⟩
    · rw [hcl, hfind] at h2
      cases h2
      exact hauth
    · rw [hcl] at h2
      by_cases hj : j = i
      · subst hj
        rw [findClient_setClient_self, hfind] at h2
        cases h2
        rfl
      · rw [findClient_setClient_ne hj, hfind] at h2
        cases h2
        exact hauth
  · intro validUrl st i data j c c2 hfind hauth h2
    rcases handleBroadcast_clients_cases validUrl st i data with hcl | ⟨src, hcl⟩
    · rw [hcl, hfind] at h2
      cases h2
      exact hauth
    · rw [hcl, dispatchBroadcast_eq] at h2
      dsimp only at h2
      rw [findClient_map_val st.clients
        (fun d => if eligibleForBroadcast d src then
          { d with messagesReceived := d.messagesReceived + 1 } else d) j, hfind] at h2
      have h3 : (some (if eligibleForBroadcast c src then
          { c with messagesReceived := c.messagesReceived + 1 } else c) : Option Client) =
          some c2 := h2
      cases h3
      by_cases he : eligibleForBroadcast c src
      · simp [he, hauth]
      · simp [he, hauth]
  · intro pw db st i msg j c c2 hfind hauth h2
    rcases handleAdminCommand_clients_cases pw db st i msg with hcl | ⟨t, b, hcl⟩
    · rw [hcl, hfind] at h2
      cases h2
      exact hauth
    · rw [hcl] at h2
      exact hupd st.clients t b j c c2 hfind hauth h2
  · intro st i j c c2 hfind hauth h2
    cases hf : findClient st.clients i with
    | none =>
      simp only [handleDisconnect, hf] at h2
      rw [hfind] at h2
      cases h2
      exact hauth
    | some client =>
      simp only [handleDisconnect, hf] at h2
      rw [findClient_filter_ne] at h2
      by_cases hj : j = i
      · rw [if_pos hj] at h2
        cases h2
      · rw [if_neg hj, hfind] at h2
        cases h2
        exact hauth
  · intro db st i msg client hfind hauth
    unfold handleLogin
    rw [hfind]
    simp [hauth]

/-- Witness for C5: a second login on an authenticated session changes
nothing, and the session stays authenticated across a broadcast
dispatch. -/
theorem c5_authenticated_never_reverts_witness :
    handleLogin ⟨[]⟩
      ⟨[(1, mkClient true true (some (lit "alice")) false false [lit "*"])],
       ⟨1, 0, 0, 0, 0, 1⟩, []⟩
      1 (lit "login alice") =
      (⟨[(1, mkClient true true (some (lit "alice")) false false [lit "*"])],
        ⟨1, 0, 0, 0, 0, 1⟩, []⟩,
       [Output.send 1 (OutMsg.errorMsg (lit "Already authenticated"))]) ∧
    ({ mkClient true true (some (lit "alice")) false false [lit "*"] with
       messagesReceived := 1 } : Client).authenticated = true := by
  constructor
  · exact (c5_authenticated_never_reverts.2.2.2.2.2) ⟨[]⟩
      ⟨[(1, mkClient true true (some (lit "alice")) false false [lit "*"])],
       ⟨1, 0, 0, 0, 0, 1⟩, []⟩
      1 (lit "login alice")
      (mkClient true true (some (lit "alice")) false false [lit "*"]) (by decide) rfl
  · exact (c5_authenticated_never_reverts.2.1) (fun _ => true)
      ⟨[(1, mkClient true true (some (lit "alice")) false false [lit "*"]),
        (2, mkClient true true (some (lit "bob")) true false [])],
       ⟨2, 0, 0, 0, 0, 2⟩, []⟩
      2
      [(lit "title", JVal.str (lit "t")), (lit "url", JVal.str (lit "u")),
       (lit "icon", JVal.str (lit "i")), (lit "source", JVal.str (lit "s")),
       (lit "image", JVal.str (lit "m"))]
      1
      (mkClient true true (some (lit "alice")) false false [lit "*"])
      ({ mkClient true true (some (lit "alice")) false false [lit "*"] with
         messagesReceived := 1 } : Client)
      (by decide) rfl (by decide)

/-- The regex `^(\\S+)\\s*\\[([^\\]]*)\\]$` of `handleLogin` on a content of
shape `u ++ w ++ "[" ++ inner ++ "]"` (u non-empty and whitespace-free, w
whitespace, inner bracket-free) captures exactly `u` and `inner`. -/
theorem extractBrackets_structured (u w inner : Str)
    (hu : u ≠ []) (hu2 : ∀ c ∈ u, jsSpace c = false)
    (hw : ∀ c ∈ w, jsSpace c = true)
    (hin1 : '[' ∉ inner) (hin2 : ']' ∉ inner) :
    extractBrackets (u ++ (w ++ ('[' :: (inner ++ [']'])))) = some (u, inner) := by
  have hshape : u ++ (w ++ ('[' :: (inner ++ [']']))) =
      (u ++ (w ++ ('[' :: inner))) ++ [']'] := by
    simp [List.append_assoc]
  rw [hshape]
  unfold extractBrackets
  rw [List.getLast?_concat, if_pos rfl, List.dropLast_concat]
  have hrev : (u ++ (w ++ ('[' :: inner))).reverse =
      inner.reverse ++ ('[' :: (w.reverse ++ u.reverse)) := by
    simp [List.reverse_append]
  simp only [splitLastBracket]
  rw [hrev]
  have hinall : ∀ c ∈ inner.reverse, (!(c = '[')) = true := by
    intro c hc
    simp only [List.mem_reverse] at hc
    have hne : ¬(c = '[') := fun h => absurd (h ▸ hc) hin1
    simp [hne]
  have hbr : (!(('[' : Char) = '[')) = false := by decide
  rw [dropWhile_append_of_all hinall hbr, takeWhile_append_of_all hinall hbr]
  dsimp only
  have hcont : inner.reverse.reverse.contains ']' = false := by
    rw [List.reverse_reverse]
    cases hc : inner.contains ']' with
    | false => rfl
    | true =>
      exact absurd (by simpa [List.contains, List.elem_eq_mem] using hc) hin2
  rw [hcont]
  simp only [Bool.false_eq_true, if_false]
  have hwall : ∀ c ∈ w.reverse, jsSpace c = true := by
    intro c hc
    exact hw c (List.mem_reverse.mp hc)
  have hpre : ((w.reverse ++ u.reverse).reverse.reverse.dropWhile jsSpace).reverse = u := by
    rw [List.reverse_reverse, dropWhile_append_all hwall,
      dropWhile_eq_self_of_head (fun c hc => hu2 c
        (List.mem_of_getLast?_eq_some (by rwa [List.head?_reverse] at hc))),
      List.reverse_reverse]
  rw [hpre]
  have hune : (!u.isEmpty) = true := by
    cases u with
    | nil => exact absurd rfl hu
    | cons a l => rfl
  have huall : u.all (fun c => !jsSpace c) = true := by
    rw [List.all_eq_true]
    intro c hc
    simp [hu2 c hc]
  rw [if_pos (by simp [hune, huall]), List.reverse_reverse]

/-- C6: login-frame filter parsing.  A frame whose content has no
bracketed list yields the receive-all default `["*"]`; on a structured
frame `login <u><w>[<inner>]` (u a whitespace-free username token, w
whitespace, inner free of brackets) an inner that trims to nothing yields
the receive-nothing empty list, an inner that trims to exactly `*` yields
the receive-all sentinel, and any other inner yields the comma-split
tokens, each trimmed and lowercased, with empty tokens dropped. -/
theorem c6_login_filter_parsing :
    (∀ (message : Str), extractBrackets (jsTrim (message.drop 6)) = none →
      parseLoginMessage message = (jsTrim (message.drop 6), [lit "*"])) ∧
    (∀ u : Str, u ≠ [] → (∀ c ∈ u, jsSpace c = false ∧ c ≠ ']') →
      parseLoginMessage (lit "login " ++ u) = (u, [lit "*"])) ∧
    (∀ (u w inner : Str), u ≠ [] → (∀ c ∈ u, jsSpace c = false) →
      (∀ c ∈ w, jsSpace c = true) → '[' ∉ inner → ']' ∉ inner →
      ((jsTrim inner = [] →
        parseLoginMessage (lit "login " ++ u ++ w ++ lit "[" ++ inner ++ lit "]") =
          (u, [])) ∧
       (jsTrim inner = lit "*" →
        parseLoginMessage (lit "login " ++ u ++ w ++ lit "[" ++ inner ++ lit "]") =
          (u, [lit "*"])) ∧
       (jsTrim inner ≠ [] → jsTrim inner ≠ lit "*" →
        parseLoginMessage (lit "login " ++ u ++ w ++ lit "[" ++ inner ++ lit "]") =
          (u, ((jsSplit ',' (jsTrim inner)).map (fun t => jsToLower (jsTrim t))).filter
            (fun t => !t.isEmpty))))) := by
  refine ⟨?_, ?_, ?_⟩
  · intro message hnone
    unfold parseLoginMessage parseLoginContent
    rw [hnone]
  · intro u hu hu2
    unfold parseLoginMessage
    rw [List.drop_left' (by rfl : (lit "login ").length = 6)]
    have htrim : jsTrim u = u := by
      refine jsTrim_eq_self ?_ ?_
      · intro c hc
        exact (hu2 c (List.mem_of_mem_head? hc)).1
      · intro c hc
        exact (hu2 c (List.mem_of_getLast?_eq_some hc)).1
    rw [htrim]
    unfold parseLoginContent extractBrackets
    have hlast : ¬(u.getLast? = some ']') := by
      intro h
      exact absurd rfl (hu2 ']' (List.mem_of_getLast?_eq_some h)).2
    rw [if_neg hlast]
  · intro u w inner hu hu2 hw hin1 hin2
    have hlb : lit "[" = ['['] := by decide
    have hrb : lit "]" = [']'] := by decide
    have hframe : lit "login " ++ u ++ w ++ lit "[" ++ inner ++ lit "]" =
        lit "login " ++ (u ++ (w ++ ('[' :: (inner ++ [']'])))) := by
      rw [hlb, hrb]
      simp [List.append_assoc]
    have hdrop : (lit "login " ++ u ++ w ++ lit "[" ++ inner ++ lit "]").drop 6 =
        u ++ (w ++ ('[' :: (inner ++ [']']))) := by
      rw [hframe, List.drop_left' (by rfl : (lit "login ").length = 6)]
    have hlast2 : (u ++ (w ++ ('[' :: (inner ++ [']'])))).getLast? = some ']' := by
      rw [(by simp [List.append_assoc] :
        u ++ (w ++ ('[' :: (inner ++ [']']))) = (u ++ (w ++ ('[' :: inner))) ++ [']'])]
      exact List.getLast?_concat _
    have htrim : jsTrim (u ++ (w ++ ('[' :: (inner ++ [']'])))) =
        u ++ (w ++ ('[' :: (inner ++ [']']))) := by
      refine jsTrim_eq_self ?_ ?_
      · intro c hc
        cases u with
        | nil => exact absurd rfl hu
        | cons a l =>
          simp only [List.cons_append, List.head?_cons, Option.some.injEq] at hc
          subst hc
          exact hu2 a (List.mem_cons_self _ _)
      · intro c hc
        rw [hlast2] at hc
        cases hc
        decide
    have hx := extractBrackets_structured u w inner hu hu2 hw hin1 hin2
    refine ⟨?_, ?_, ?_⟩
    · intro htin
      unfold parseLoginMessage
      rw [hdrop, htrim]
      unfold parseLoginContent
      rw [hx]
      simp [htin]
    · intro htin
      unfold parseLoginMessage
      rw [hdrop, htrim]
      unfold parseLoginContent
      rw [hx]
      simp [htin]
      decide
    · intro htin1 htin2
      unfold parseLoginMessage
      rw [hdrop, htrim]
      unfold parseLoginContent
      rw [hx]
      have he1 : (jsTrim inner).isEmpty = false := by
        cases h : jsTrim inner with
        | nil => exact absurd h htin1
        | cons a l => rfl
      simp only [he1, Bool.false_eq_true, if_false, htin2, if_neg htin2]

/-- Witness for C6 at concrete frames: `login alice` (receive-all
default), `login alice []` (receive-nothing), `login alice [*]`
(receive-all), and `login alice [News, , Sports]` (trimmed lowercased
tokens with the empty token dropped). -/
theorem c6_login_filter_parsing_witness :
    parseLoginMessage (lit "login alice") = (lit "alice", [lit "*"]) ∧
    parseLoginMessage (lit "login alice" ++ lit " " ++ lit "[" ++ lit "" ++ lit "]") =
      (lit "alice", []) ∧
    parseLoginMessage (lit "login alice" ++ lit " " ++ lit "[" ++ lit " * " ++ lit "]") =
      (lit "alice", [lit "*"]) ∧
    parseLoginMessage
        (lit "login alice" ++ lit " " ++ lit "[" ++ lit "News, , Sports" ++ lit "]") =
      (lit "alice",
        ((jsSplit ',' (jsTrim (lit "News, , Sports"))).map (fun t => jsToLower (jsTrim t))).filter
          (fun t => !t.isEmpty)) := by
  have hframe : ∀ innerStr : String,
      lit "login alice" ++ lit " " ++ lit "[" ++ lit innerStr ++ lit "]" =
      lit "login " ++ lit "alice" ++ lit " " ++ lit "[" ++ lit innerStr ++ lit "]" := by
    intro innerStr
    simp [lit]
  refine ⟨?_, ?_, ?_, ?_⟩
  · exact c6_login_filter_parsing.2.1 (lit "alice") (by decide) (by decide)
  · rw [hframe]
    exact (c6_login_filter_parsing.2.2 (lit "alice") (lit " ") (lit "")
      (by decide) (by decide) (by decide) (by decide) (by decide)).1 (by decide)
  · rw [hframe]
    exact (c6_login_filter_parsing.2.2 (lit "alice") (lit " ") (lit " * ")
      (by decide) (by decide) (by decide) (by decide) (by decide)).2.1 (by decide)
  · rw [hframe]
    exact (c6_login_filter_parsing.2.2 (lit "alice") (lit " ") (lit "News, , Sports")
      (by decide) (by decide) (by decide) (by decide) (by decide)).2.2
      (by decide) (by decide)

end BucketRelay
